import Mathlib

/-!
Verification of the GeoCortex agentic tool-orchestration core
(`app/services/agent_service.py` in its two variants, plus
`chat_store.py` and `governance.py`).

Modelling conventions, chosen to mirror the Python source:

* Python strings are Lean `String`; the string operations used by the code
  (`lower`, `find`, `rfind`, substring membership via `in`, slicing,
  `startswith`, `strip`) are implemented below by structural recursion over
  the character list, with CPython semantics.
* Every numeric literal that flows through the orchestration core
  (limits, bbox corners, distances, bin sizes) is integral in the source,
  so Python numbers are modelled as `Int`.  `int(v)` and `float(v)` are
  modelled as the corresponding partial parses.
* JSON values supplied by the LLM as tool arguments are modelled by the
  two-level type `AScal`/`AVal` (scalars, flat lists, flat dicts); argument
  dictionaries are association lists with unique keys.  `json.dumps` with
  `sort_keys=True`, used to build loop-detection call signatures, is the
  function `AVal.dumps`/`dumpsArgs`.
* External collaborators (the LLM, `json.loads`, the SQLAlchemy-backed
  tool executors, the RAG retriever, `os.getenv`, `sanitize_text`) are
  parameters of the embedding: an executor returns `Except String _`,
  where `Except.error` models a raised exception whose message is the
  carried string.
* The process-wide audit log (`audit_log`, documented to never raise and
  to affect no result) is not represented.
-/

/-- Python `s.lower()` (ASCII case mapping, which covers every string the
orchestration code lowercases). -/
def pyLower (s : String) : String := String.mk (s.data.map Char.toLower)

/-- Python `s.upper()`. -/
def pyUpper (s : String) : String := String.mk (s.data.map Char.toUpper)

/-- Python `needle in hay` on strings: substring containment. -/
def subIn (needle hay : String) : Bool :=
  go needle.data hay.data
where
  go (n : List Char) : List Char → Bool
    | [] => n.isPrefixOf []
    | c :: cs => n.isPrefixOf (c :: cs) || go n cs

/-- Python `s.startswith(p)`. -/
def pyStartsWith (s p : String) : Bool := p.data.isPrefixOf s.data

/-- Python `s.find(c)` for a single character: first index, `-1` if absent. -/
def pyFindChar (s : String) (c : Char) : Int :=
  go s.data 0
where
  go : List Char → Int → Int
    | [], _ => -1
    | x :: xs, i => if x = c then i else go xs (i + 1)

/-- Python `s.rfind(c)` for a single character: last index, `-1` if absent. -/
def pyRfindChar (s : String) (c : Char) : Int :=
  go s.data 0 (-1)
where
  go : List Char → Int → Int → Int
    | [], _, acc => acc
    | x :: xs, i, acc => go xs (i + 1) (if x = c then i else acc)

/-- Python slice `s[a : b]` for `0 <= a` and `0 <= b` (the only form the
extractors use). -/
def pySlice (s : String) (a b : Nat) : String :=
  String.mk ((s.data.take b).drop a)

/-- Python `s.strip()` (ASCII whitespace). -/
def pyStrip (s : String) : String :=
  String.mk ((stripLead (stripLead s.data.reverse).reverse))
where
  isWs (c : Char) : Bool := c = ' ' || c = '\t' || c = '\n' || c = '\r'
  stripLead : List Char → List Char
    | [] => []
    | c :: cs => if isWs c then stripLead cs else c :: cs

/-- Python `s.rstrip()`. -/
def pyRstrip (s : String) : String :=
  String.mk ((stripLead s.data.reverse).reverse)
where
  isWs (c : Char) : Bool := c = ' ' || c = '\t' || c = '\n' || c = '\r'
  stripLead : List Char → List Char
    | [] => []
    | c :: cs => if isWs c then stripLead cs else c :: cs

/-- Decimal digits of a natural number (fuel-based so that the kernel can
evaluate it). -/
def natToStrAux : Nat → Nat → List Char
  | 0, _ => []
  | _ + 1, 0 => []
  | fuel + 1, n => natToStrAux fuel (n / 10) ++ [Char.ofNat (48 + n % 10)]

/-- Decimal rendering of a natural number. -/
def natToStr (n : Nat) : String :=
  if n = 0 then "0" else String.mk (natToStrAux (n + 1) n)

/-- Decimal rendering of an integer (Python `str` on `int`). -/
def intToStr (i : Int) : String :=
  if i < 0 then "-" ++ natToStr i.natAbs else natToStr i.natAbs

/-- Python `int(s)` on a string: optional sign, then decimal digits;
`none` models `ValueError`. -/
def parseIntStr (s : String) : Option Int :=
  match pyStrip s |>.data with
  | [] => none
  | '-' :: ds => (parseDigitsNE ds).map (fun n => -(n : Int))
  | '+' :: ds => (parseDigitsNE ds).map (fun n => (n : Int))
  | ds => (parseDigitsNE ds).map (fun n => (n : Int))
where
  parseDigits : List Char → Nat → Option Nat
    | [], acc => some acc
    | c :: cs, acc =>
      if c.isDigit then parseDigits cs (acc * 10 + (c.toNat - 48)) else none
  parseDigitsNE (ds : List Char) : Option Nat :=
    if ds = [] then none else parseDigits ds 0

/-- Lexicographic `<=` on strings by code point (used only to make the
`sort_keys=True` serialisation of argument dicts canonical). -/
def strLe (a b : String) : Bool :=
  go a.data b.data
where
  go : List Char → List Char → Bool
    | [], _ => true
    | _ :: _, [] => false
    | x :: xs, y :: ys =>
      if x.toNat < y.toNat then true
      else if y.toNat < x.toNat then false
      else go xs ys

/-- Insertion into a `strLe`-sorted list. -/
def insertStr (x : String) : List String → List String
  | [] => [x]
  | y :: ys => if strLe x y then x :: y :: ys else y :: insertStr x ys

/-- Insertion sort on strings, used for `json.dumps(..., sort_keys=True)`. -/
def sortStrs : List String → List String
  | [] => []
  | x :: xs => insertStr x (sortStrs xs)

/-- Join a list of strings with a separator (Python `sep.join`). -/
def strJoinSep (sep : String) : List String → String
  | [] => ""
  | [x] => x
  | x :: xs => x ++ sep ++ strJoinSep sep xs

/-- A scalar JSON value as supplied by the LLM in tool arguments.
Python floats in this code are integral, hence `snum : Int`. -/
inductive AScal where
  | sstr (s : String)
  | snum (n : Int)
  | sbool (b : Bool)
  | snone
  deriving DecidableEq, Repr

/-- A JSON value usable as a tool-argument value: a scalar, a list of
scalars, or a flat object. -/
inductive AVal where
  | ascal (v : AScal)
  | alist (l : List AScal)
  | adict (d : List (String × AScal))
  deriving DecidableEq, Repr

/-- An LLM-supplied argument dictionary (`args`), an association list with
unique keys in insertion order, like a Python `dict`. -/
abbrev Args := List (String × AVal)

/-- `args.get(k)`: `none` when the key is absent. -/
def aget (a : Args) (k : String) : Option AVal :=
  match a with
  | [] => none
  | (k2, v) :: rest => if k2 = k then some v else aget rest k

/-- `k in args`. -/
def ahas (a : Args) (k : String) : Bool := (aget a k).isSome

/-- `args[k] = v`: replace in place, or append. -/
def aset (a : Args) (k : String) (v : AVal) : Args :=
  match a with
  | [] => [(k, v)]
  | (k2, w) :: rest => if k2 = k then (k2, v) :: rest else (k2, w) :: aset rest k v

/-- JSON escaping is irrelevant for the signature role of `dumps`;
keys and strings are emitted verbatim between quotes. -/
def dumpsScal : AScal → String
  | .sstr s => "\"" ++ s ++ "\""
  | .snum n => intToStr n
  | .sbool b => if b then "true" else "false"
  | .snone => "null"

/-- `json.dumps(v, sort_keys=True)` for an argument value. -/
def AVal.dumps : AVal → String
  | .ascal v => dumpsScal v
  | .alist l => "[" ++ strJoinSep "," (l.map dumpsScal) ++ "]"
  | .adict d =>
    "\x7b" ++ strJoinSep "," (sortStrs (d.map fun kv => "\"" ++ kv.1 ++ "\":" ++ dumpsScal kv.2)) ++ "\x7d"

/-- `json.dumps(args, sort_keys=True)` for a whole argument dictionary. -/
def dumpsArgs (a : Args) : String :=
  "\x7b" ++ strJoinSep "," (sortStrs (a.map fun kv => "\"" ++ kv.1 ++ "\":" ++ kv.2.dumps)) ++ "\x7d"

/-- The per-invocation loop-detection signature
`f"{action}:{json.dumps(args, sort_keys=True, ensure_ascii=False)}"`. -/
def callKey (action : String) (args : Args) : String :=
  action ++ ":" ++ dumpsArgs args

/-- Python `str(v)` for an argument value (only its totality matters:
`str` accepts any object). -/
def pyStrOf : AVal → String
  | .ascal (.sstr s) => s
  | .ascal (.snum n) => intToStr n
  | .ascal (.sbool b) => if b then "True" else "False"
  | .ascal .snone => "None"
  | v => v.dumps

/-- Python `int(v)` on an argument value; `none` models the raised
`TypeError`/`ValueError`. -/
def pyInt : AVal → Option Int
  | .ascal (.snum n) => some n
  | .ascal (.sstr s) => parseIntStr s
  | .ascal (.sbool b) => some (if b then 1 else 0)
  | _ => none

/-- Python `float(v)` on an argument value (numbers being integral here);
`none` models the raised exception.  String parsing accepts the integral
decimal forms that occur in this code. -/
def pyFloat : AVal → Option Int
  | .ascal (.snum n) => some n
  | .ascal (.sstr s) => parseIntStr s
  | .ascal (.sbool b) => some (if b then 1 else 0)
  | _ => none

/-! ## Argument Normalizer (agent_service.py, both variants) -/

/-- `_IGNORE_OCCURRENCE_TYPE_VALUES`. -/
def ignoreOccurrenceTypeValues : List String :=
  ["occurrence", "occurrences", "all", "any", "none", "null"]

/-- `_normalize_occurrence_type` on an optional string. -/
def normalizeOccurrenceType (value : Option String) : Option String :=
  match value with
  | none => none
  | some value =>
    let v := pyStrip value
    if v = "" then none
    else if (pyLower v) ∈ ignoreOccurrenceTypeValues then none
    else some v

/-- `_normalize_occurrence_type(args.get("occurrence_type"))` lifted to an
argument value.  A non-string, non-`None` value makes `.strip()` raise
`AttributeError` in Python, modelled as `Except.error`. -/
def normalizeOccurrenceTypeVal : AVal → Except String (Option String)
  | .ascal .snone => .ok none
  | .ascal (.sstr s) => .ok (normalizeOccurrenceType (some s))
  | _ => .error "AttributeError: strip"

/-- `_split_multi` (Backend variant). -/
def splitMulti (value : Option String) : List String :=
  match value with
  | none => []
  | some value =>
    let v := pyStrip value
    if v = "" then []
    else
      ((v.replace " and " ",").replace " AND " ",").splitOn ","
        |>.map pyStrip |>.filter (fun p => p ≠ "")

/-- `_clamp_int`. -/
def clampInt (v : Option AVal) (lo hi dflt : Int) : Int :=
  match v.bind pyInt with
  | none => dflt
  | some n => max lo (min hi n)

/-- `_clamp_float` (integral numbers, see the modelling note above). -/
def clampFloat (v : Option AVal) (lo hi dflt : Int) : Int :=
  match v.bind pyFloat with
  | none => dflt
  | some n => max lo (min hi n)

/-- `_normalize_region_value`: accepts a string or a list. -/
def normalizeRegionValue (value : Option AVal) : Option String :=
  match value with
  | none => none
  | some (.ascal .snone) => none
  | some (.alist l) =>
    let parts := (l.map (fun x => pyStrip (pyStrOf (.ascal x)))).filter (fun p => p ≠ "")
    if parts = [] then none else some (strJoinSep ", " parts)
  | some v =>
    let s := pyStrip (pyStrOf v)
    if s = "" then none else some s

/-- `_validate_lat_lon`. -/
def validateLatLon (lat lon : Option AVal) : Option (Int × Int) :=
  match lat.bind pyFloat, lon.bind pyFloat with
  | some la, some lo =>
    if -90 ≤ la ∧ la ≤ 90 ∧ -180 ≤ lo ∧ lo ≤ 180 then some (la, lo) else none
  | _, _ => none

/-! ## The tolerant JSON extractors

`loads` is the external `json.loads`, returning `none` where Python raises.
The extractors are polymorphic in the parse result. -/

/-- `_extract_json_object` of the Geo_Cortex variant
(`Geo_Cortex/.../agent_service.py`, lines 545-557): find the first `«{»`
and the last `«}»`, then parse the enclosed slice. -/
def extractJsonObjectGC {α : Type} (loads : String → Option α) (text : String) : Option α :=
  let start := pyFindChar text '\x7b'
  let stop := pyRfindChar text '\x7d'
  if start = -1 ∨ stop = -1 ∨ stop ≤ start then none
  else loads (pySlice text start.toNat (stop.toNat + 1))

/-- `_extract_json_object` of the Backend variant
(`Backend/.../agent_service.py`, lines 789-797): the function body ends
right after the index check — its `json.loads` tail sits as unreachable
code after the `return` of `run_workflow` (lines 1436-1439) — so control
falls off the end and the function returns `None` on every input. -/
def extractJsonObjectBE {α : Type} (loads : String → Option α) (text : String) : Option α :=
  let start := pyFindChar text '\x7b'
  let stop := pyRfindChar text '\x7d'
  if start = -1 ∨ stop = -1 ∨ stop ≤ start then none
  else
    -- the parse tail `json.loads(text[start : end + 1])` is missing here
    let _ := loads
    none

/-- `_extract_json_object_loose` (Backend variant, lines 800-813):
complete, with an additional empty-text early return. -/
def extractJsonObjectLoose {α : Type} (loads : String → Option α) (text : String) : Option α :=
  if text = "" then none
  else
    let start := pyFindChar text '\x7b'
    let stop := pyRfindChar text '\x7d'
    if start = -1 ∨ stop = -1 ∨ stop ≤ start then none
    else loads (pySlice text start.toNat (stop.toNat + 1))

/-- The behaviour C2 ascribes to the extractor, written from the words of
the spec: return the object parsed from the substring spanning the first
`«{»` through the last `«}»` whenever that substring parses, `None`
otherwise. -/
def extractJsonObjectSpec {α : Type} (loads : String → Option α) (text : String) : Option α :=
  let start := pyFindChar text '\x7b'
  let stop := pyRfindChar text '\x7d'
  if start ≠ -1 ∧ stop ≠ -1 ∧ start < stop then
    loads (pySlice text start.toNat (stop.toNat + 1))
  else none

/-! ## Governance (Geo_Cortex/.../app/services/governance.py) -/

/-- The process environment, `os.getenv`. -/
abbrev Env := String → Option String

/-- `os.getenv(name, default)`. -/
def getenvD (env : Env) (name dflt : String) : String := (env name).getD dflt

/-- `_env_flag` (governance.py, lines 18-19). -/
def envFlag (env : Env) (name : String) (dflt : String) : Bool :=
  pyLower (getenvD env name dflt) ∈ ["1", "true", "yes", "on"]

/-- `strict_mode` (governance.py, lines 27-29). -/
def strictMode (env : Env) : Bool := envFlag env "DATA_GOV_STRICT" "0"

/-- `feature_enabled` (governance.py, lines 32-41). -/
def featureEnabledG (env : Env) (feature : String) : Bool :=
  let feature := pyLower feature
  if ¬ strictMode env then true
  else envFlag env (pyUpper feature ++ "_ENABLE") "0"

/-! ## Session/Chat store (Backend/.../app/services/chat_store.py) -/

/-- `ChatMessage` (timestamps as integer ticks). -/
structure ChatMsg where
  role : String
  content : String
  ts : Int
  deriving DecidableEq, Repr

/-- The in-memory `_store`: messages per session id. -/
abbrev ChatStore := List (String × List ChatMsg)

/-- `_store.get(session_id, [])` / `setdefault` read. -/
def storeGet (st : ChatStore) (sid : String) : List ChatMsg :=
  match st with
  | [] => []
  | (s, ms) :: rest => if s = sid then ms else storeGet rest sid

/-- Write one session of the store. -/
def storePut (st : ChatStore) (sid : String) (ms : List ChatMsg) : ChatStore :=
  match st with
  | [] => [(sid, ms)]
  | (s, old) :: rest => if s = sid then (s, ms) :: rest else (s, old) :: storePut rest sid ms

/-- `get_history(session_id, limit)` (chat_store.py, lines 29-33): read
only, last `limit` messages. -/
def getHistory (st : ChatStore) (sid : String) (limit : Int) : List ChatMsg :=
  let msgs := storeGet st sid
  if limit ≤ 0 then []
  else msgs.drop (msgs.length - limit.toNat)

/-- `append_message` (chat_store.py, lines 36-43): no-op on empty content,
append, truncate to the last 40. -/
def appendMessage (st : ChatStore) (sid role content : String) (now : Int) : ChatStore :=
  if content = "" then st
  else
    let msgs := storeGet st sid ++ [⟨role, content, now⟩]
    if msgs.length > 40 then storePut st sid (msgs.drop (msgs.length - 40))
    else storePut st sid msgs

/-- `append_message_db` (chat_store.py, lines 89-100): same content logic
against the lazily-created durable row. -/
def appendMessageDb (st : ChatStore) (sid role content : String) (now : Int) : ChatStore :=
  if content = "" then st
  else
    let msgs := storeGet st sid ++ [⟨role, content, now⟩]
    let msgs := if msgs.length > 40 then msgs.drop (msgs.length - 40) else msgs
    storePut st sid msgs

/-- `reset_session` (chat_store.py, lines 46-48), restricted to the
message store (`_store.pop(session_id, None)`). -/
def resetSession : ChatStore → String → ChatStore
  | [], _ => []
  | (s, ms) :: rest, sid =>
    if s = sid then resetSession rest sid else (s, ms) :: resetSession rest sid

/-! ## Shared agent-loop data model -/

/-- An occurrence-like record or aggregation row returned by a tool
executor (opaque to the loop except for field reads and lengths). -/
abbrev Row := List (String × AScal)

/-- `row.get(k)`. -/
def rowGet (r : Row) (k : String) : Option AScal :=
  match r with
  | [] => none
  | (k2, v) :: rest => if k2 = k then some v else rowGet rest k

/-- `k in row`. -/
def rowHas (r : Row) (k : String) : Bool := (rowGet r k).isSome

/-- Python truthiness of a scalar. -/
def scalTruthy : AScal → Bool
  | .sstr s => s ≠ ""
  | .snum n => n ≠ 0
  | .sbool b => b
  | .snone => false

/-- Python truthiness of an argument value. -/
def avTruthy : AVal → Bool
  | .ascal v => scalTruthy v
  | .alist l => l ≠ []
  | .adict d => d ≠ []

/-- Render a scalar the way an f-string does. -/
def strOfScal : AScal → String
  | .sstr s => s
  | .snum n => intToStr n
  | .sbool b => if b then "True" else "False"
  | .snone => "None"

/-- `(row.get(k) or "Unknown")` rendered into an f-string. -/
def rowGetOrUnknown (r : Row) (k : String) : String :=
  match rowGet r k with
  | some v => if scalTruthy v then strOfScal v else "Unknown"
  | none => "Unknown"

/-- `str(row.get(k))` rendered into an f-string (`None` when absent). -/
def rowGetStr (r : Row) (k : String) : String :=
  match rowGet r k with
  | some v => strOfScal v
  | none => "None"

/-- `enumerate(l)` starting at index `i`. -/
def enumFrom {α : Type} (i : Nat) : List α → List (Nat × α)
  | [] => []
  | x :: xs => (i, x) :: enumFrom (i + 1) xs

/-- The parsed-JSON view of one LLM reply that the loop consumes:
whether the object has an `action` key, its value when it is a string,
`args` (defaulted to `{}`), and `str(obj.get("answer", ""))`. -/
structure ActionObj where
  hasAction : Bool
  action : Option String
  args : Args
  answer : String
  deriving DecidableEq, Repr

/-- A computed artifact payload: a list of rows, raw text, a number, or a
geometry-like JSON value. -/
inductive PayV where
  | rows (l : List Row)
  | txt (s : String)
  | num (n : Int)
  | geo (v : AVal)
  | row (r : Row)
  | rep (counts : Row) (sample : List Row)
  deriving DecidableEq, Repr

/-- Artifact accumulator, a string-keyed map in insertion order. -/
abbrev Artifacts := List (String × PayV)

/-- Artifact read. -/
def artGet (a : Artifacts) (k : String) : Option PayV :=
  match a with
  | [] => none
  | (k2, v) :: rest => if k2 = k then some v else artGet rest k

/-- `k in artifacts`. -/
def artHas (a : Artifacts) (k : String) : Bool := (artGet a k).isSome

/-- Artifact write (replace or append, like a Python dict). -/
def artSet (a : Artifacts) (k : String) (v : PayV) : Artifacts :=
  match a with
  | [] => [(k, v)]
  | (k2, w) :: rest => if k2 = k then (k2, v) :: rest else (k2, w) :: artSet rest k v

/-- One tool-trace record: the tool name, its (normalized) arguments, an
error message when the executor raised, the count-like summary field, and
the key list recorded by `qc_summary`. -/
structure TraceEntry where
  tool : String
  args : Args
  error : Option String
  n : Option Nat
  keys : List String
  deriving DecidableEq, Repr

/-- A successful trace record with a count field. -/
def okT (tool : String) (args : Args) (n : Nat) : TraceEntry :=
  ⟨tool, args, none, some n, []⟩

/-- A successful trace record without a count field. -/
def okT0 (tool : String) (args : Args) : TraceEntry :=
  ⟨tool, args, none, none, []⟩

/-- An error trace record (`{tool, args, error}`). -/
def errT (tool : String) (args : Args) (e : String) : TraceEntry :=
  ⟨tool, args, some e, none, []⟩

/-- What `run_agent` returns (the well-formed 4-tuple), together with the
number of `generate_response` invocations the run performed. -/
structure AgentResult where
  answer : String
  trace : List TraceEntry
  occs : Option (List Row)
  artifacts : Artifacts
  llmCalls : Nat
  deriving DecidableEq, Repr

/-- Outcome of one loop iteration: continue, `break` to answer synthesis,
or return from `run_agent`. -/
inductive StepOut (St : Type) where
  | cont (st : St)
  | brk (st : St)
  | ret (r : AgentResult)

/-! ## Geo_Cortex variant: `run_agent`
(Geo_Cortex/Geo_Cortex_Assistant/app/services/agent_service.py) -/

/-- The tool executors of the Geo_Cortex variant, as external
collaborators over the data store; `Except.error` models a raised
exception. `handle_query` backs the `rag` tool. -/
structure ToolsGC where
  search_mods : Args → Except String (List Row)
  nearby_mods : Args → Except String (List Row)
  commodity_stats : Args → Except String (List Row)
  bbox_mods : Args → Except String (List Row)
  nearest_mods : Args → Except String (List Row)
  geojson_export : Args → Except String (List Row)
  csv_export : Args → Except String String
  stats_by_region : Args → Except String (List Row)
  stats_by_type : Args → Except String (List Row)
  stats_region_by_type : Args → Except String (List Row)
  importance_breakdown : Args → Except String (List Row)
  heatmap_bins : Args → Except String (List Row)
  handle_query : String → Except String (String × List Row)

/-- `_strip_arabic_diacritics` (harakat ranges and tatweel). -/
def stripArabicDiacritics (s : String) : String :=
  String.mk (s.data.filter (fun ch =>
    let cp := ch.toNat
    ¬ (cp = 0x0640 ∨ (0x064B ≤ cp ∧ cp ≤ 0x065F) ∨ cp = 0x0670 ∨ (0x06D6 ≤ cp ∧ cp ≤ 0x06ED))))

/-- `common_commodities`. -/
def commonCommodities : List String :=
  ["gold", "copper", "silver", "zinc", "lead", "iron", "phosphate", "nickel"]

/-- `ar_commodity_map`. -/
def arCommodityMap : List (String × String) :=
  [("ذهب", "gold"), ("الذهب", "gold"), ("دهب", "gold"), ("الدهب", "gold"),
   ("نحاس", "copper"), ("فضة", "silver"), ("الفضة", "silver"),
   ("حديد", "iron"), ("الحديد", "iron"), ("فوسفات", "phosphate"),
   ("نيكل", "nickel"), ("رصاص", "lead"), ("زنك", "zinc")]

/-- `ar_region_map`. -/
def arRegionMap : List (String × String) :=
  [("الرياض", "Riyadh"), ("جدة", "Jeddah"), ("مكة", "Makkah"), ("مكه", "Makkah"),
   ("المدينة", "Madinah"), ("المدينه", "Madinah"), ("الدمام", "Dammam"),
   ("تبوك", "Tabouk"), ("عسير", "Asir"), ("جازان", "Jizan"), ("جيزان", "Jizan"),
   ("القصيم", "Qassim"), ("حائل", "Hail"), ("حايل", "Hail"), ("نجران", "Najran"),
   ("الباحة", "Bahah"), ("الباحه", "Bahah"),
   ("مكة المكرمة", "Makkah"), ("المدينة المنورة", "Madinah")]

/-- `_extract_commodity`. -/
def extractCommodity (ql : String) : Option String :=
  match commonCommodities.find? (fun c => subIn c ql) with
  | some c => some c
  | none => (arCommodityMap.find? (fun p => subIn p.1 ql)).map (·.2)

/-- `_extract_region_hint`. -/
def extractRegionHint (ql : String) : Option String :=
  if subIn "riyadh" ql then some "Riyadh"
  else (arRegionMap.find? (fun p => subIn p.1 ql)).map (·.2)

/-- `in_saudi`. -/
def inSaudiQ (ql : String) : Bool :=
  subIn "saudi" ql || subIn "ksa" ql || subIn "saudi arabia" ql ||
  subIn "السعود" ql || subIn "المملكة العربية السعودية" ql || subIn "المملكة" ql

/-- `wants_all`. -/
def wantsAllQ (ql : String) : Bool :=
  subIn "all" ql || subIn "everything" ql || subIn "جميع" ql || subIn "كل" ql ||
  subIn "كافة" ql || subIn "كلها" ql || subIn "كامل" ql

/-- `wants_points`. -/
def wantsPointsQ (ql : String) : Bool :=
  subIn "occ" ql || subIn "occurrence" ql || subIn "occurrences" ql ||
  subIn "point" ql || subIn "points" ql || subIn "نقاط" ql ||
  subIn "مواقع" ql || subIn "تواجد" ql

/-- Deterministic rule 1: region-by-type breakdown. -/
def gcRouteRegionByType (ql : String) : Bool :=
  subIn "region by type" ql || (subIn "region" ql && subIn "type" ql && subIn "by" ql)

/-- Deterministic rule 2: occurrence-type breakdown. -/
def gcRouteByType (ql : String) : Bool :=
  subIn "by type" ql || (subIn "types" ql && subIn "occurrence" ql) ||
  subIn "type of occurrence" ql

/-- Deterministic rule 3: Saudi-wide points query. -/
def gcRouteSaudiPoints (ql : String) : Bool :=
  inSaudiQ ql && wantsPointsQ ql && !(subIn "count" ql) &&
  !(subIn "by type" ql) && !(subIn "region by type" ql)

/-- Deterministic rule 4: region-hint points query. -/
def gcRouteRegionPoints (ql : String) : Bool :=
  (extractRegionHint ql).isSome && wantsPointsQ ql && !(subIn "count" ql) &&
  !(subIn "by type" ql) && !(subIn "region by type" ql)

/-- `SAUDI_BBOX`, in source key order. -/
def saudiBbox : Args :=
  [("min_lon", .ascal (.snum 34)), ("min_lat", .ascal (.snum 16)),
   ("max_lon", .ascal (.snum 56)), ("max_lat", .ascal (.snum 33))]

/-- `args.update(other)` for argument dicts. -/
def argsUpdate (a other : Args) : Args :=
  other.foldl (fun acc kv => aset acc kv.1 kv.2) a

/-- `_grounded_nl_summary` (lines 69-128): one `generate_response` call
over a FACTS block, stripped, plus the hard guard-rail suffix when
occurrences were found.  Returns the text and the next LLM call index. -/
def groundedNlSummary (llm : Nat → String) (k : Nat) (query : String)
    (occs : Option (List Row)) (artifacts : Artifacts) : String × Nat :=
  let nOccs := (occs.getD []).length
  let facts :=
    "\x7b\"occurrences_count\":" ++ natToStr nOccs ++
    ",\"has_geojson\":" ++ (if artHas artifacts "geojson" then "true" else "false") ++
    ",\"has_csv\":" ++ (if artHas artifacts "csv" then "true" else "false") ++ "\x7d"
  let prompt :=
    "You are a helpful geospatial assistant.\n" ++
    "Write a short natural-language answer grounded ONLY in the FACTS JSON.\n" ++
    "\nUser query:\n" ++ query ++ "\n\nFACTS JSON:\n" ++ facts ++ "\n\nAnswer:\n"
  let _ := prompt
  let txt := pyStrip (llm k)
  let txt := if nOccs > 0
    then pyRstrip txt ++ "\n\nFound " ++ natToStr nOccs ++ " occurrences (see table/map)."
    else txt
  (txt, k + 1)

/-- The loop-local mutable state of the Geo_Cortex `run_agent`:
LLM call count, trace, `last_occurrences`, `artifacts`, `seen_calls`,
`scratchpad` and the latest raw model output. -/
structure GCSt where
  k : Nat
  trace : List TraceEntry
  occs : Option (List Row)
  artifacts : Artifacts
  seen : List String
  scratch : String
  lastOut : String
  deriving Repr

/-- The artifact-redundancy guard of the Geo_Cortex loop (lines 786-793):
a fixed list of (action, artifact-key) pairs. -/
def gcAlready (act : Option String) (artifacts : Artifacts) : Bool :=
  (act = some "heatmap_bins" && artHas artifacts "heatmap_bins") ||
  (act = some "stats_by_region" && artHas artifacts "stats_by_region") ||
  (act = some "importance_breakdown" && artHas artifacts "importance_breakdown") ||
  (act = some "geojson_export" && artHas artifacts "geojson") ||
  (act = some "csv_export" && artHas artifacts "csv") ||
  (act = some "nearest_mods" && artHas artifacts "nearest_results")

/-- `f"{action}"` for a parsed action value (non-string actions render
like their Python repr; only equality with registry names matters). -/
def actText (act : Option String) : String :=
  match act with
  | some a => a
  | none => "None"

/-- Successful-dispatch state update of the Geo_Cortex loop: append the
trace record, optionally set `last_occurrences` and one artifact key, and
extend the scratchpad. -/
def contOkGC (st : GCSt) (name : String) (args : Args) (rows : List Row)
    (artKey : Option String) (setOccs : Bool) (note : String) : GCSt :=
  { st with
      occs := if setOccs then some rows else st.occs
      artifacts := match artKey with
        | some k => artSet st.artifacts k (.rows rows)
        | none => st.artifacts
      trace := st.trace ++ [okT name args rows.length]
      scratch := st.scratch ++ note }

/-- The `except` branch of the loop dispatch: record `{tool, args, error}`
and extend the scratchpad; the loop then continues. -/
def contErrGC (st : GCSt) (name : String) (args : Args) (e : String) : GCSt :=
  { st with
      trace := st.trace ++ [errT name args e]
      scratch := st.scratch ++ "\n- tool " ++ name ++ " errored: " ++ e ++ "\n" }

/-- The `try`-block dispatch of the Geo_Cortex loop (lines 807-881): one
branch per registry tool, each catching its executor's exception in an
error trace entry; an unknown tool name returns the raw model output. -/
def dispatchGC (tools : ToolsGC) (query modelOut : String) (st : GCSt)
    (act : Option String) (args : Args) : StepOut GCSt :=
  if act = some "search_mods" then
    match tools.search_mods args with
    | .ok rows => .cont (contOkGC st "search_mods" args rows none true
        ("\n- search_mods returned " ++ natToStr rows.length ++ " rows\n"))
    | .error e => .cont (contErrGC st "search_mods" args e)
  else if act = some "nearby_mods" then
    match tools.nearby_mods args with
    | .ok rows => .cont (contOkGC st "nearby_mods" args rows none true
        ("\n- nearby_mods returned " ++ natToStr rows.length ++ " rows\n"))
    | .error e => .cont (contErrGC st "nearby_mods" args e)
  else if act = some "commodity_stats" then
    match tools.commodity_stats args with
    | .ok rows => .cont (contOkGC st "commodity_stats" args rows none false
        "\n- commodity_stats top5\n")
    | .error e => .cont (contErrGC st "commodity_stats" args e)
  else if act = some "bbox_mods" then
    match tools.bbox_mods args with
    | .ok rows => .cont (contOkGC st "bbox_mods" args rows none true
        ("\n- bbox_mods returned " ++ natToStr rows.length ++ " rows\n"))
    | .error e => .cont (contErrGC st "bbox_mods" args e)
  else if act = some "nearest_mods" then
    match tools.nearest_mods args with
    | .ok rows => .cont (contOkGC st "nearest_mods" args rows (some "nearest_results") false
        ("\n- nearest_mods returned " ++ natToStr rows.length ++ " rows; preview\n"))
    | .error e => .cont (contErrGC st "nearest_mods" args e)
  else if act = some "geojson_export" then
    match tools.geojson_export args with
    | .ok feats => .cont (contOkGC st "geojson_export" args feats (some "geojson") false
        ("\n- geojson_export produced " ++ natToStr feats.length ++ " features\n"))
    | .error e => .cont (contErrGC st "geojson_export" args e)
  else if act = some "csv_export" then
    match tools.csv_export args with
    | .ok csvText => .cont { st with
        artifacts := artSet st.artifacts "csv" (.txt csvText)
        trace := st.trace ++ [okT "csv_export" args csvText.length]
        scratch := st.scratch ++ "\n- csv_export produced " ++
          natToStr csvText.length ++ " characters of CSV\n" }
    | .error e => .cont (contErrGC st "csv_export" args e)
  else if act = some "stats_by_region" then
    match tools.stats_by_region args with
    | .ok rows => .cont (contOkGC st "stats_by_region" args rows (some "stats_by_region") false
        "\n- stats_by_region top5\n")
    | .error e => .cont (contErrGC st "stats_by_region" args e)
  else if act = some "stats_by_type" then
    match tools.stats_by_type args with
    | .ok rows => .cont (contOkGC st "stats_by_type" args rows (some "stats_by_type") false
        "\n- stats_by_type top5\n")
    | .error e => .cont (contErrGC st "stats_by_type" args e)
  else if act = some "stats_region_by_type" then
    match tools.stats_region_by_type args with
    | .ok rows => .cont (contOkGC st "stats_region_by_type" args rows (some "stats_region_by_type") false
        "\n- stats_region_by_type top5\n")
    | .error e => .cont (contErrGC st "stats_region_by_type" args e)
  else if act = some "importance_breakdown" then
    match tools.importance_breakdown args with
    | .ok rows => .cont (contOkGC st "importance_breakdown" args rows (some "importance_breakdown") false
        "\n- importance_breakdown\n")
    | .error e => .cont (contErrGC st "importance_breakdown" args e)
  else if act = some "heatmap_bins" then
    match tools.heatmap_bins args with
    | .ok rows => .cont (contOkGC st "heatmap_bins" args rows (some "heatmap_bins") false
        "\n- heatmap_bins top5\n")
    | .error e => .cont (contErrGC st "heatmap_bins" args e)
  else if act = some "rag" then
    let q := match aget args "query" with
      | some v => if avTruthy v then pyStrOf v else query
      | none => query
    match tools.handle_query q with
    | .ok pr => .cont { st with
        occs := some pr.2
        trace := st.trace ++ [okT "rag" [("query", .ascal (.sstr q))] pr.2.length]
        scratch := st.scratch ++ "\n- rag returned " ++ natToStr pr.2.length ++
          " rows; response preview: " ++ pySlice pr.1 0 250 ++ "\n" }
    | .error e => .cont (contErrGC st "rag" args e)
  else
    -- unknown tool => stop
    .ret ⟨modelOut, st.trace ++ [okT0 "unknown" args], st.occs, st.artifacts, st.k⟩

/-- One iteration of the Geo_Cortex loop body (lines 760-881): prompt,
parse, redundancy/loop checks, dispatch with `try/except`. -/
def stepGC (llm : Nat → String) (loads : String → Option ActionObj)
    (tools : ToolsGC) (debugTrace : Bool) (query : String) (st : GCSt) :
    StepOut GCSt :=
  let modelOut := llm st.k
  let st := { st with k := st.k + 1, lastOut := modelOut }
  match extractJsonObjectGC loads modelOut with
  | none =>
    if st.trace ≠ [] then .brk st
    else .ret ⟨modelOut, st.trace, st.occs, st.artifacts, st.k⟩
  | some obj =>
    if ¬ obj.hasAction then
      if st.trace ≠ [] then .brk st
      else .ret ⟨modelOut, st.trace, st.occs, st.artifacts, st.k⟩
    else if obj.action = some "final" then
      let (txt, k2) := groundedNlSummary llm st.k query st.occs st.artifacts
      .ret ⟨txt, st.trace, st.occs, st.artifacts, k2⟩
    else
      let args := obj.args
      let act := obj.action
      if gcAlready act st.artifacts then
        let st := if debugTrace
          then { st with trace := st.trace ++ [okT0 "redundant_tool_call" args] } else st
        .brk st
      else
        let key := callKey (actText act) args
        if st.seen.contains key then
          let st := if debugTrace
            then { st with trace := st.trace ++ [okT0 "loop_detected" args] } else st
          .brk st
        else
          let st := { st with seen := st.seen ++ [key] }
          dispatchGC tools query modelOut st act args

/-- Rows payload of an artifact slot. -/
def payRows : Option PayV → Option (List Row)
  | some (.rows l) => some l
  | _ => none

/-- The `geojson` branch of the post-loop answer chain. -/
def finGeojsonGC (st : GCSt) : Option String :=
  (payRows (artGet st.artifacts "geojson")).map (fun feats =>
    "Generated GeoJSON FeatureCollection with " ++ natToStr feats.length ++
    " features. See `artifacts.geojson` in the response.")

/-- The `csv` branch. -/
def finCsvGC (st : GCSt) : Option String :=
  (artGet st.artifacts "csv").map (fun _ =>
    "Generated CSV export. See `artifacts.csv` in the response.")

/-- The `stats_by_region` branch. -/
def finStatsByRegionGC (query : String) (st : GCSt) : Option String :=
  (payRows (artGet st.artifacts "stats_by_region")).map (fun rows =>
    let top5 := rows.take 5
    let lines := (enumFrom 0 top5).filterMap (fun iv =>
      if (rowGet iv.2 "admin_region").any scalTruthy then
        some (natToStr (iv.1 + 1) ++ ". " ++ rowGetStr iv.2 "admin_region" ++ ": " ++
          rowGetStr iv.2 "count")
      else none)
    "Top regions by count" ++
      (if subIn "gold" (pyLower query) then " (Gold)" else "") ++ ":\n" ++
      (if lines = [] then "(no rows)" else strJoinSep "\n" lines))

/-- The `stats_by_type` branch. -/
def finStatsByTypeGC (st : GCSt) : Option String :=
  (payRows (artGet st.artifacts "stats_by_type")).map (fun rows =>
    let lines := (enumFrom 0 (rows.take 10)).map (fun iv =>
      natToStr (iv.1 + 1) ++ ". " ++ rowGetOrUnknown iv.2 "occurrence_type" ++ ": " ++
        rowGetStr iv.2 "count")
    "Top occurrence types:\n" ++ (if lines = [] then "(no rows)" else strJoinSep "\n" lines))

/-- The `stats_region_by_type` branch. -/
def finStatsRegionByTypeGC (st : GCSt) : Option String :=
  (payRows (artGet st.artifacts "stats_region_by_type")).map (fun rows =>
    let lines := (enumFrom 0 (rows.take 10)).map (fun iv =>
      natToStr (iv.1 + 1) ++ ". " ++ rowGetOrUnknown iv.2 "admin_region" ++ " - " ++
      rowGetOrUnknown iv.2 "occurrence_type" ++ ": " ++ rowGetStr iv.2 "count")
    "Top region-by-type pairs by count:\n" ++
      (if lines = [] then "(no rows)" else strJoinSep "\n" lines))

/-- The `importance_breakdown` branch. -/
def finImportanceGC (st : GCSt) : Option String :=
  (payRows (artGet st.artifacts "importance_breakdown")).map (fun rows =>
    let lines := rows.map (fun r =>
      "- " ++ rowGetOrUnknown r "occurrence_importance" ++ ": " ++ rowGetStr r "count")
    "Occurrence importance breakdown:\n" ++
      (if lines = [] then "(no rows)" else strJoinSep "\n" lines))

/-- The `heatmap_bins` branch. -/
def finHeatmapGC (st : GCSt) : Option String :=
  (payRows (artGet st.artifacts "heatmap_bins")).map (fun bins =>
    let lines := (bins.take 5).filterMap (fun b =>
      if rowHas b "lat" && rowHas b "lon" then
        some ("- (" ++ rowGetStr b "lat" ++ ", " ++ rowGetStr b "lon" ++ "): " ++
          rowGetStr b "count")
      else none)
    "Generated " ++ natToStr bins.length ++ " heatmap bins. Top 5 bins:\n" ++
      (if lines = [] then "(no bins)" else strJoinSep "\n" lines))

/-- The `nearest_results` branch (guarded by `not last_occurrences`). -/
def finNearestGC (st : GCSt) : Option String :=
  if (artHas st.artifacts "nearest_results") &&
     (match st.occs with | none => true | some l => l.isEmpty) then
    let nr := (payRows (artGet st.artifacts "nearest_results")).getD []
    let lines := (enumFrom 0 (nr.take 5)).map (fun iv =>
      natToStr (iv.1 + 1) ++ ". " ++
      (match rowGet iv.2 "english_name" with
       | some v => if scalTruthy v then strOfScal v else "Unknown"
       | none => "Unknown"))
    some ("Computed " ++ natToStr nr.length ++ " nearest results. Top 5:\n" ++
      (if lines = [] then "(no results)" else strJoinSep "\n" lines))
  else none

/-- First-hit chaining of the answer branches. -/
def orElseO (a : Option String) (b : Unit → Option String) : Option String :=
  match a with
  | some m => some m
  | none => b ()

/-- The artifact-priority chain of the Geo_Cortex post-loop synthesis,
in source order. -/
def finChainGC (query : String) (st : GCSt) : Option String :=
  orElseO (finGeojsonGC st) (fun _ =>
    orElseO (finCsvGC st) (fun _ =>
      orElseO (finStatsByRegionGC query st) (fun _ =>
        orElseO (finStatsByTypeGC st) (fun _ =>
          orElseO (finStatsRegionByTypeGC st) (fun _ =>
            orElseO (finImportanceGC st) (fun _ =>
              orElseO (finHeatmapGC st) (fun _ =>
                finNearestGC st)))))))

/-- Post-loop answer synthesis of the Geo_Cortex `run_agent`
(lines 883-966): the artifact-priority chain, then the grounded summary
when anything ran, else the raw model output. -/
def finishGC (llm : Nat → String) (query : String) (st : GCSt) : AgentResult :=
  match finChainGC query st with
  | some msg => ⟨msg, st.trace, st.occs, st.artifacts, st.k⟩
  | none =>
    if st.trace ≠ [] || (st.occs.getD []) ≠ [] || st.artifacts ≠ [] then
      let (txt, k2) := groundedNlSummary llm st.k query st.occs st.artifacts
      ⟨txt, st.trace, st.occs, st.artifacts, k2⟩
    else
      ⟨st.lastOut, st.trace, st.occs, st.artifacts, st.k⟩

/-- `for _ in range(max_steps)` around `stepGC`, ending in `finishGC`. -/
def loopGC (llm : Nat → String) (loads : String → Option ActionObj)
    (tools : ToolsGC) (debugTrace : Bool) (query : String) :
    Nat → GCSt → AgentResult
  | 0, st => finishGC llm query st
  | fuel + 1, st =>
    match stepGC llm loads tools debugTrace query st with
    | .cont st2 => loopGC llm loads tools debugTrace query fuel st2
    | .brk st2 => finishGC llm query st2
    | .ret r => r

/-- Tool arguments of deterministic route 1 (limit, optional Saudi bbox,
optional commodity). -/
def gcArgsRegionByType (ql : String) : Args :=
  let args := [("limit", AVal.ascal (.snum 50))]
  let args := if inSaudiQ ql then argsUpdate args saudiBbox else args
  match extractCommodity ql with
  | some c => aset args "commodity" (.ascal (.sstr c))
  | none => args

/-- Deterministic route 1 body (`stats_region_by_type`, lines 690-701). -/
def gcRunRegionByType (tools : ToolsGC) (ql : String) : Except String AgentResult :=
  Except.bind (tools.stats_region_by_type (gcArgsRegionByType ql)) (fun rows =>
    let artifacts := artSet [] "stats_region_by_type" (.rows rows)
    let trace := [okT "stats_region_by_type" (gcArgsRegionByType ql) rows.length]
    let lines := (enumFrom 0 (rows.take 10)).map (fun iv =>
      natToStr (iv.1 + 1) ++ ". " ++ rowGetOrUnknown iv.2 "admin_region" ++ " - " ++
      rowGetOrUnknown iv.2 "occurrence_type" ++ ": " ++ rowGetStr iv.2 "count")
    Except.ok ⟨"Top region-by-type pairs by count:\n" ++
      (if lines = [] then "(no rows)" else strJoinSep "\n" lines),
      trace, none, artifacts, 0⟩)

/-- Tool arguments of deterministic route 2. -/
def gcArgsByType (ql : String) : Args :=
  let args := [("limit", AVal.ascal (.snum 25))]
  let args := if inSaudiQ ql then argsUpdate args saudiBbox else args
  match extractCommodity ql with
  | some c => aset args "commodity" (.ascal (.sstr c))
  | none => args

/-- Deterministic route 2 body (`stats_by_type`, lines 704-715). -/
def gcRunByType (tools : ToolsGC) (ql : String) : Except String AgentResult :=
  Except.bind (tools.stats_by_type (gcArgsByType ql)) (fun rows =>
    let artifacts := artSet [] "stats_by_type" (.rows rows)
    let trace := [okT "stats_by_type" (gcArgsByType ql) rows.length]
    let lines := (enumFrom 0 (rows.take 8)).map (fun iv =>
      natToStr (iv.1 + 1) ++ ". " ++ rowGetOrUnknown iv.2 "occurrence_type" ++ ": " ++
        rowGetStr iv.2 "count")
    Except.ok ⟨"Top occurrence types:\n" ++
      (if lines = [] then "(no rows)" else strJoinSep "\n" lines),
      trace, none, artifacts, 0⟩)

/-- `int(os.getenv("AGENT_ALL_LIMIT", "5000"))`; a garbage value raises. -/
def agentAllLimit (env : Env) : Except String Int :=
  match parseIntStr (getenvD env "AGENT_ALL_LIMIT" "5000") with
  | some n => .ok n
  | none => .error "ValueError: invalid literal for int()"

/-- Tool arguments of deterministic route 3. -/
def gcArgsSaudiPoints (ql : String) (limit : Int) : Args :=
  let args := argsUpdate saudiBbox [("limit", AVal.ascal (.snum limit))]
  match extractCommodity ql with
  | some c => aset args "commodity" (.ascal (.sstr c))
  | none => args

/-- Deterministic route 3 body (Saudi-wide `bbox_mods`, lines 720-738):
runs the bbox tool, then the grounded summary (one LLM call), then the
result-cap suffixes. -/
def gcRunSaudiPoints (env : Env) (llm : Nat → String) (tools : ToolsGC)
    (query ql : String) : Except String AgentResult :=
  Except.bind (if wantsAllQ ql then agentAllLimit env else .ok 500) (fun limit =>
    Except.bind (tools.bbox_mods (gcArgsSaudiPoints ql limit)) (fun rows =>
      let trace := [okT "bbox_mods" (gcArgsSaudiPoints ql limit) rows.length]
      let pr := groundedNlSummary llm 0 query (some rows) []
      let msg := pr.1
      let msg := if ¬ wantsAllQ ql ∧ limit ≤ (rows.length : Int) then
          pyRstrip msg ++ "\n\nShowing the first " ++ intToStr limit ++
            " results (ask for \"all\" / \"جميع\" to fetch more)."
        else msg
      let msg := if wantsAllQ ql ∧ limit ≤ (rows.length : Int) then
          pyRstrip msg ++ "\n\nShowing the first " ++ intToStr limit ++ " results (safety cap)."
        else msg
      Except.ok ⟨msg, trace, some rows, [], pr.2⟩))

/-- Tool arguments of deterministic route 4. -/
def gcArgsRegionPoints (ql : String) (limit : Int) : Args :=
  let args := [("region", AVal.ascal (.sstr ((extractRegionHint ql).getD ""))),
               ("limit", AVal.ascal (.snum limit))]
  match extractCommodity ql with
  | some c => aset args "commodity" (.ascal (.sstr c))
  | none => args

/-- Deterministic route 4 body (region-hint `search_mods`, lines 742-757). -/
def gcRunRegionPoints (env : Env) (llm : Nat → String) (tools : ToolsGC)
    (query ql : String) : Except String AgentResult :=
  Except.bind (if wantsAllQ ql then agentAllLimit env else .ok 200) (fun limit =>
    Except.bind (tools.search_mods (gcArgsRegionPoints ql limit)) (fun rows =>
      let trace := [okT "search_mods" (gcArgsRegionPoints ql limit) rows.length]
      let pr := groundedNlSummary llm 0 query (some rows) []
      let msg := pr.1
      let msg := if ¬ wantsAllQ ql ∧ limit ≤ (rows.length : Int) then
          pyRstrip msg ++ "\n\nShowing the first " ++ intToStr limit ++
            " results (ask for \"all\" / \"جميع\" to fetch more)."
        else msg
      let msg := if wantsAllQ ql ∧ limit ≤ (rows.length : Int) then
          pyRstrip msg ++ "\n\nShowing the first " ++ intToStr limit ++ " results (safety cap)."
        else msg
      Except.ok ⟨msg, trace, some rows, [], pr.2⟩))

/-- The deterministic Router of the Geo_Cortex `run_agent` (lines
592-757), evaluated in priority order; `none` means no rule matched and
the LLM loop runs. -/
def fastPathGC (env : Env) (llm : Nat → String) (tools : ToolsGC)
    (query : String) : Option (Except String AgentResult) :=
  let ql := stripArabicDiacritics (pyLower query)
  if gcRouteRegionByType ql then some (gcRunRegionByType tools ql)
  else if gcRouteByType ql then some (gcRunByType tools ql)
  else if gcRouteSaudiPoints ql then some (gcRunSaudiPoints env llm tools query ql)
  else if gcRouteRegionPoints ql then some (gcRunRegionPoints env llm tools query ql)
  else none

/-- `run_agent` of the Geo_Cortex variant (lines 560-966): deterministic
routing first, else the bounded LLM tool loop.  `Except.error` models an
uncaught Python exception reaching the caller. -/
def runAgentGC (env : Env) (llm : Nat → String) (loads : String → Option ActionObj)
    (tools : ToolsGC) (query : String) (maxSteps : Nat) : Except String AgentResult :=
  let debugTrace := pyLower (getenvD env "AGENT_DEBUG_TRACE" "0") ∈ ["1", "true", "yes"]
  match fastPathGC env llm tools query with
  | some r => r
  | none => .ok (loopGC llm loads tools debugTrace query maxSteps ⟨0, [], none, [], [], "", ""⟩)

/-! ## Backend variant: `run_agent`
(Backend/Geo_Cortex/Geo_Cortex_Assistant/app/services/agent_service.py) -/

/-- Replace every occurrence of a non-empty pattern (Python
`s.replace(pat, rep)`), fuel-based for kernel evaluation. -/
def replaceSubAux (pat rep : List Char) : Nat → List Char → List Char
  | 0, s => s
  | _ + 1, [] => []
  | fuel + 1, c :: cs =>
    if pat.isPrefixOf (c :: cs) ∧ pat ≠ [] then
      rep ++ replaceSubAux pat rep fuel ((c :: cs).drop pat.length)
    else c :: replaceSubAux pat rep fuel cs

/-- Python `s.replace(pat, rep)` for non-empty patterns. -/
def replaceSub (s pat rep : String) : String :=
  String.mk (replaceSubAux pat.data rep.data s.data.length s.data)

/-- Order-preserving de-duplication (the `seen`/`final` idiom of
`_infer_regions_from_query`). -/
def dedupStrs : List String → List String
  | [] => []
  | x :: xs => x :: (dedupStrs xs).filter (fun y => y ≠ x)

/-- `_infer_regions_from_query` (Backend, lines 1458-1485): match DB
region names whose base token occurs in the query, with the
`madinah`/`medina` alias. -/
def inferRegionsFromQuery (dbRegions : List String) (query : String) : List String :=
  let q := pyLower query
  let out := dbRegions.filter (fun reg =>
    let base := pyStrip (replaceSub (replaceSub (pyLower reg) " region" "") " province" "")
    if base = "madinah" then subIn "madinah" q || subIn "medina" q
    else subIn base q)
  dedupStrs out

/-- `_infer_commodity_from_query` (Backend, lines 1487-1498). -/
def inferCommodityFromQuery (query : String) : Option String :=
  let q := pyLower query
  if subIn "gold" q then some "Gold"
  else if subIn "copper" q then some "Copper"
  else if subIn "zinc" q then some "Zinc"
  else if subIn "silver" q then some "Silver"
  else none

/-- The tool executors of the Backend variant, abstracting the data-store
queries; result shapes follow the canonical shapes of the source
(`FeatureCollection` payloads are carried as their feature lists, the
`qc_outliers` report as its counts row and sample rows). -/
structure ToolsBE where
  search_mods : Args → Except String (List Row)
  nearby_mods : Args → Except String (List Row)
  commodity_stats : Args → Except String (List Row)
  bbox_mods : Args → Except String (List Row)
  nearest_mods : Args → Except String (List Row)
  geojson_export : Args → Except String (List Row)
  csv_export : Args → Except String String
  stats_by_region : Args → Except String (List Row)
  importance_breakdown : Args → Except String (List Row)
  heatmap_bins : Args → Except String (List Row)
  qc_summary : Unit → Except String Row
  qc_duplicates_mods_id : Args → Except String (List Row)
  qc_duplicates_coords : Args → Except String (List Row)
  qc_outliers : Args → Except String (Row × List Row)
  ogc_items_link : Args → Except String String
  spatial_query : Args → Except String (Int × List Row)
  spatial_buffer : Args → Except String AVal
  spatial_nearest : Args → Except String (List Row)

/-- The loop-local state of the Backend `run_agent`, with the upfront RAG
context and the conversation history block. -/
structure BESt where
  k : Nat
  trace : List TraceEntry
  occs : Option (List Row)
  artifacts : Artifacts
  seen : List String
  scratch : String
  ragCtx : String
  lastOut : String
  deriving Repr

/-- Guard rails of the Backend loop (lines 1616-1674): normalization and
hard caps applied to the parsed arguments before dispatch.  These run
outside the `try` block, so `Except.error` here propagates out of
`run_agent` (`raise ValueError("Invalid lat/lon")`, and `.strip()` on a
non-string `occurrence_type`). -/
def guardBE (act : Option String) (args : Args) : Except String Args := do
  let args := if ahas args "region" then
      aset args "region" (match normalizeRegionValue (aget args "region") with
        | some s => .ascal (.sstr s)
        | none => .ascal .snone)
    else args
  let args ← if ahas args "occurrence_type" then do
      let v ← normalizeOccurrenceTypeVal ((aget args "occurrence_type").getD (.ascal .snone))
      pure (aset args "occurrence_type" (match v with
        | some s => .ascal (.sstr s)
        | none => .ascal .snone))
    else pure args
  let args := if ahas args "exploration_status" then
      match aget args "exploration_status" with
      | some (.ascal .snone) => args
      | some v =>
        let vv := pyStrip (pyStrOf v)
        aset args "exploration_status" (if vv = "" then .ascal .snone else .ascal (.sstr vv))
      | none => args
    else args
  let args := if act = some "search_mods" ∨ act = some "nearby_mods" ∨
      act = some "bbox_mods" ∨ act = some "nearest_mods" then
      aset args "limit" (.ascal (.snum (clampInt (aget args "limit") 1 200 25)))
    else args
  let args := if act = some "geojson_export" then
      aset args "limit" (.ascal (.snum (clampInt (aget args "limit") 1 2000 200)))
    else args
  let args := if act = some "csv_export" then
      aset args "limit" (.ascal (.snum (clampInt (aget args "limit") 1 5000 2000)))
    else args
  let args := if act = some "stats_by_region" ∨ act = some "commodity_stats" then
      aset args "limit" (.ascal (.snum (clampInt (aget args "limit") 1 200 25)))
    else args
  let args := if act = some "heatmap_bins" then
      let args := aset args "limit" (.ascal (.snum (clampInt (aget args "limit") 1 500 200)))
      aset args "bin_km" (.ascal (.snum
        (clampFloat (some ((aget args "bin_km").getD (.ascal (.snum 25)))) 1 250 25)))
    else args
  let args := if act = some "qc_duplicates_mods_id" ∨ act = some "qc_duplicates_coords" ∨
      act = some "qc_outliers" then
      aset args "limit" (.ascal (.snum (clampInt (aget args "limit") 1 5000 200)))
    else args
  let args := if act = some "spatial_query" then
      let args := aset args "limit" (.ascal (.snum (clampInt (aget args "limit") 1 5000 500)))
      let args := aset args "offset" (.ascal (.snum (clampInt (aget args "offset") 0 500000 0)))
      if aget args "op" = some (.ascal (.sstr "dwithin")) then
        aset args "distance_m" (.ascal (.snum (clampFloat (aget args "distance_m") 0 2000000 50000)))
      else args
    else args
  let args := if act = some "spatial_buffer" then
      aset args "distance_m" (.ascal (.snum (clampFloat (aget args "distance_m") 0 2000000 50000)))
    else args
  let args := if act = some "spatial_nearest" then
      aset args "limit" (.ascal (.snum (clampInt (aget args "limit") 1 500 25)))
    else args
  let args ← if act = some "nearby_mods" then
      match validateLatLon (aget args "lat") (aget args "lon") with
      | none => .error "Invalid lat/lon"
      | some (la, lo) =>
        let args := aset (aset args "lat" (.ascal (.snum la))) "lon" (.ascal (.snum lo))
        -- the 0.1 km lower clamp bound is modelled by its integral floor
        pure (aset args "radius_km" (.ascal (.snum (clampFloat (aget args "radius_km") 0 1000 50))))
    else pure args
  let args ← if act = some "nearest_mods" then
      match validateLatLon (aget args "lat") (aget args "lon") with
      | none => .error "Invalid lat/lon"
      | some (la, lo) =>
        pure (aset (aset args "lat" (.ascal (.snum la))) "lon" (.ascal (.snum lo)))
    else pure args
  let args := if act = some "bbox_mods" then
      let args := aset args "min_lat" (.ascal (.snum (clampFloat (aget args "min_lat") (-90) 90 (-90))))
      let args := aset args "max_lat" (.ascal (.snum (clampFloat (aget args "max_lat") (-90) 90 90)))
      let args := aset args "min_lon" (.ascal (.snum (clampFloat (aget args "min_lon") (-180) 180 (-180))))
      aset args "max_lon" (.ascal (.snum (clampFloat (aget args "max_lon") (-180) 180 180)))
    else args
  return args

/-- The artifact-redundancy guard of the Backend loop (lines 1676-1693). -/
def beAlready (act : Option String) (artifacts : Artifacts) : Bool :=
  (act = some "heatmap_bins" && artHas artifacts "heatmap_bins") ||
  (act = some "stats_by_region" && artHas artifacts "stats_by_region") ||
  (act = some "importance_breakdown" && artHas artifacts "importance_breakdown") ||
  (act = some "geojson_export" && artHas artifacts "geojson") ||
  (act = some "csv_export" && artHas artifacts "csv") ||
  (act = some "nearest_mods" && artHas artifacts "nearest_results") ||
  (act = some "qc_summary" && artHas artifacts "qc_summary") ||
  (act = some "qc_duplicates_mods_id" && artHas artifacts "qc_duplicates_mods_id") ||
  (act = some "qc_duplicates_coords" && artHas artifacts "qc_duplicates_coords") ||
  (act = some "qc_outliers" && artHas artifacts "qc_outliers") ||
  (act = some "ogc_items_link" && artHas artifacts "ogc_items_url") ||
  (act = some "publish_layer_instructions" && artHas artifacts "qgis_instructions") ||
  (act = some "spatial_query" && artHas artifacts "spatial_geojson") ||
  (act = some "spatial_buffer" && artHas artifacts "spatial_buffer_geometry") ||
  (act = some "spatial_nearest" && artHas artifacts "spatial_nearest")

/-- Loop-iteration outcome for the Backend variant, whose pre-dispatch
guard rails can raise outside the `try` block. -/
inductive StepOutE (St : Type) where
  | cont (st : St)
  | brk (st : St)
  | ret (r : AgentResult)
  | err (e : String)

/-- The `except` branch of the Backend dispatch: record the error and
continue. -/
def beContErr (st : BESt) (name : String) (args : Args) (e : String) : BESt :=
  { st with
      trace := st.trace ++ [errT name args e]
      scratch := st.scratch ++ "\n- tool " ++ name ++ " errored: " ++ e ++ "\n" }

/-- State update after a successful Backend dispatch. -/
def beUpd (st : BESt) (entry : TraceEntry) (artUpd : Artifacts → Artifacts)
    (newOccs : Option (List Row)) (note : String) : BESt :=
  { st with
      occs := match newOccs with
        | some l => some l
        | none => st.occs
      artifacts := artUpd st.artifacts
      trace := st.trace ++ [entry]
      scratch := st.scratch ++ note }

/-- The mis-indented unconditional return of the Backend dispatch
(source lines 1850-1851, sitting at `if`-chain level inside the `try`):
after every non-raising dispatch it fires
`audit_log("agent_unknown_tool", ...)` and returns the raw model output,
sanitized, instead of looping back to another LLM iteration. -/
def beRet (sanitize : String → String) (modelOut : String) (st : BESt) : StepOutE BESt :=
  .ret ⟨sanitize modelOut, st.trace, st.occs, st.artifacts, st.k⟩

/-- The `try`-block dispatch of the Backend loop (lines 1707-1851),
including the governance gates and ending in the unconditional return. -/
def dispatchBE (fe : String → Bool) (tools : ToolsBE)
    (ragRetrieve : String → String × List Row) (sanitize : String → String)
    (query modelOut : String) (st : BESt) (act : Option String) (args : Args) :
    StepOutE BESt :=
  if act = some "search_mods" then
    match tools.search_mods args with
    | .ok rows => beRet sanitize modelOut (beUpd st (okT "search_mods" args rows.length)
        id (some rows) ("\n- search_mods returned " ++ natToStr rows.length ++ " rows\n"))
    | .error e => .cont (beContErr st "search_mods" args e)
  else if act = some "nearby_mods" then
    match tools.nearby_mods args with
    | .ok rows => beRet sanitize modelOut (beUpd st (okT "nearby_mods" args rows.length)
        id (some rows) ("\n- nearby_mods returned " ++ natToStr rows.length ++ " rows\n"))
    | .error e => .cont (beContErr st "nearby_mods" args e)
  else if act = some "commodity_stats" then
    match tools.commodity_stats args with
    | .ok rows => beRet sanitize modelOut (beUpd st (okT "commodity_stats" args rows.length)
        id none "\n- commodity_stats top5\n")
    | .error e => .cont (beContErr st "commodity_stats" args e)
  else if act = some "bbox_mods" then
    match tools.bbox_mods args with
    | .ok rows => beRet sanitize modelOut (beUpd st (okT "bbox_mods" args rows.length)
        id (some rows) ("\n- bbox_mods returned " ++ natToStr rows.length ++ " rows\n"))
    | .error e => .cont (beContErr st "bbox_mods" args e)
  else if act = some "nearest_mods" then
    match tools.nearest_mods args with
    | .ok rows => beRet sanitize modelOut (beUpd st (okT "nearest_mods" args rows.length)
        (fun a => artSet a "nearest_results" (.rows rows)) none
        ("\n- nearest_mods returned " ++ natToStr rows.length ++ " rows; preview\n"))
    | .error e => .cont (beContErr st "nearest_mods" args e)
  else if act = some "geojson_export" then
    match tools.geojson_export args with
    | .ok feats => beRet sanitize modelOut (beUpd st (okT "geojson_export" args feats.length)
        (fun a => artSet a "geojson" (.rows feats)) none
        ("\n- geojson_export produced " ++ natToStr feats.length ++ " features\n"))
    | .error e => .cont (beContErr st "geojson_export" args e)
  else if act = some "csv_export" then
    match tools.csv_export args with
    | .ok csvText => beRet sanitize modelOut (beUpd st (okT "csv_export" args csvText.length)
        (fun a => artSet a "csv" (.txt csvText)) none
        ("\n- csv_export produced " ++ natToStr csvText.length ++ " characters of CSV\n"))
    | .error e => .cont (beContErr st "csv_export" args e)
  else if act = some "stats_by_region" then
    match tools.stats_by_region args with
    | .ok rows => beRet sanitize modelOut (beUpd st (okT "stats_by_region" args rows.length)
        (fun a => artSet a "stats_by_region" (.rows rows)) none "\n- stats_by_region top5\n")
    | .error e => .cont (beContErr st "stats_by_region" args e)
  else if act = some "importance_breakdown" then
    match tools.importance_breakdown args with
    | .ok rows => beRet sanitize modelOut (beUpd st (okT "importance_breakdown" args rows.length)
        (fun a => artSet a "importance_breakdown" (.rows rows)) none "\n- importance_breakdown\n")
    | .error e => .cont (beContErr st "importance_breakdown" args e)
  else if act = some "heatmap_bins" then
    match tools.heatmap_bins args with
    | .ok rows => beRet sanitize modelOut (beUpd st (okT "heatmap_bins" args rows.length)
        (fun a => artSet a "heatmap_bins" (.rows rows)) none "\n- heatmap_bins top5\n")
    | .error e => .cont (beContErr st "heatmap_bins" args e)
  else if act = some "qc_summary" then
    if ¬ fe "qc" then .cont (beContErr st "qc_summary" args "QC is disabled by data governance policy.")
    else match tools.qc_summary () with
    | .ok rep => beRet sanitize modelOut (beUpd st ⟨"qc_summary", [], none, none, rep.map (·.1)⟩
        (fun a => artSet a "qc_summary" (.row rep)) none "\n- qc_summary\n")
    | .error e => .cont (beContErr st "qc_summary" args e)
  else if act = some "qc_duplicates_mods_id" then
    if ¬ fe "qc" then .cont (beContErr st "qc_duplicates_mods_id" args "QC is disabled by data governance policy.")
    else match tools.qc_duplicates_mods_id args with
    | .ok rows => beRet sanitize modelOut (beUpd st (okT "qc_duplicates_mods_id" args rows.length)
        (fun a => artSet a "qc_duplicates_mods_id" (.rows rows)) none "\n- qc_duplicates_mods_id groups\n")
    | .error e => .cont (beContErr st "qc_duplicates_mods_id" args e)
  else if act = some "qc_duplicates_coords" then
    if ¬ fe "qc" then .cont (beContErr st "qc_duplicates_coords" args "QC is disabled by data governance policy.")
    else match tools.qc_duplicates_coords args with
    | .ok rows => beRet sanitize modelOut (beUpd st (okT "qc_duplicates_coords" args rows.length)
        (fun a => artSet a "qc_duplicates_coords" (.rows rows)) none "\n- qc_duplicates_coords groups\n")
    | .error e => .cont (beContErr st "qc_duplicates_coords" args e)
  else if act = some "qc_outliers" then
    if ¬ fe "qc" then .cont (beContErr st "qc_outliers" args "QC is disabled by data governance policy.")
    else match tools.qc_outliers args with
    | .ok pr => beRet sanitize modelOut (beUpd st (okT "qc_outliers" args pr.2.length)
        (fun a => artSet a "qc_outliers" (.rep pr.1 pr.2)) none "\n- qc_outliers counts\n")
    | .error e => .cont (beContErr st "qc_outliers" args e)
  else if act = some "ogc_items_link" then
    if ¬ fe "ogc" then .cont (beContErr st "ogc_items_link" args "OGC API Features is disabled by data governance policy.")
    else match tools.ogc_items_link args with
    | .ok url => beRet sanitize modelOut (beUpd st ⟨"ogc_items_link", args, none, none, [url]⟩
        (fun a => artSet a "ogc_items_url" (.txt url)) none ("\n- ogc_items_link: " ++ url ++ "\n"))
    | .error e => .cont (beContErr st "ogc_items_link" args e)
  else if act = some "publish_layer_instructions" then
    if ¬ fe "ogc" then .cont (beContErr st "publish_layer_instructions" args "OGC API Features is disabled by data governance policy.")
    else
      let fromArgs : Option String := match aget args "ogc_items_url" with
        | some v => if avTruthy v then some (pyStrOf v) else none
        | none => none
      let fromArt : Option String := match artGet st.artifacts "ogc_items_url" with
        | some (.txt s) => if s ≠ "" then some s else none
        | _ => none
      let url0 := pyStrip ((fromArgs.orElse (fun _ => fromArt)).getD "")
      let urlE : Except String String :=
        if url0 = "" then tools.ogc_items_link [] else .ok url0
      match urlE with
      | .ok url =>
        let instructions :=
          "QGIS (OGC API Features) quick add:\n" ++
          "1) Open QGIS → Data Source Manager\n" ++
          "2) Find \x27OGC API - Features\x27 (or \x27WFS/OGC API Features\x27 depending on QGIS version)\n" ++
          "3) New connection → URL: " ++ url ++ "\n" ++
          "4) Connect → choose \x27mods_occurrences\x27 → Add\n"
        beRet sanitize modelOut (beUpd st
          ⟨"publish_layer_instructions", [("ogc_items_url", .ascal (.sstr url))], none, some instructions.length, []⟩
          (fun a => artSet a "qgis_instructions" (.txt instructions)) none
          ("\n- publish_layer_instructions generated " ++ natToStr instructions.length ++ " chars\n"))
      | .error e => .cont (beContErr st "publish_layer_instructions" args e)
  else if act = some "spatial_query" then
    if ¬ fe "spatial" then .cont (beContErr st "spatial_query" args "Spatial operations are disabled by data governance policy.")
    else match tools.spatial_query args with
    | .ok pr => beRet sanitize modelOut (beUpd st (okT "spatial_query" args pr.2.length)
        (fun a => artSet (artSet a "spatial_total" (.num pr.1)) "spatial_geojson" (.rows pr.2)) none
        ("\n- spatial_query total=" ++ intToStr pr.1 ++ "\n"))
    | .error e => .cont (beContErr st "spatial_query" args e)
  else if act = some "spatial_buffer" then
    if ¬ fe "spatial" then .cont (beContErr st "spatial_buffer" args "Spatial operations are disabled by data governance policy.")
    else match tools.spatial_buffer args with
    | .ok geom => beRet sanitize modelOut (beUpd st (okT0 "spatial_buffer" args)
        (fun a => artSet a "spatial_buffer_geometry" (.geo geom)) none
        "\n- spatial_buffer produced a buffer geometry\n")
    | .error e => .cont (beContErr st "spatial_buffer" args e)
  else if act = some "spatial_nearest" then
    if ¬ fe "spatial" then .cont (beContErr st "spatial_nearest" args "Spatial operations are disabled by data governance policy.")
    else match tools.spatial_nearest args with
    | .ok rows => beRet sanitize modelOut (beUpd st (okT "spatial_nearest" args rows.length)
        (fun a => artSet a "spatial_nearest" (.rows rows)) none
        ("\n- spatial_nearest returned " ++ natToStr rows.length ++ " rows\n"))
    | .error e => .cont (beContErr st "spatial_nearest" args e)
  else if act = some "rag" then
    let q := match aget args "query" with
      | some v => if avTruthy v then pyStrOf v else query
      | none => query
    let pr := ragRetrieve q
    beRet sanitize modelOut
      { st with
          ragCtx := if pr.1 ≠ "" then pr.1 else st.ragCtx
          occs := if pr.2 ≠ [] then some pr.2 else st.occs
          trace := st.trace ++ [okT "rag" [("query", .ascal (.sstr q))] pr.2.length]
          scratch := st.scratch ++ "\n- rag_retrieve refreshed context; occs: " ++
            natToStr pr.2.length ++ "\n" }
  else
    -- unknown tool => stop (and the same unconditional return)
    .ret ⟨sanitize modelOut, st.trace ++ [okT0 "unknown" args], st.occs, st.artifacts, st.k⟩

/-- One iteration of the Backend loop body (lines 1585-1854): prompt,
parse with the always-`None` extractor, guard rails (which may raise),
redundancy/loop checks, then the `try`-dispatch. -/
def stepBE (llm : Nat → String) (loads : String → Option ActionObj) (fe : String → Bool)
    (tools : ToolsBE) (ragRetrieve : String → String × List Row)
    (sanitize : String → String) (debugTrace : Bool) (query : String) (st : BESt) :
    StepOutE BESt :=
  let modelOut := llm st.k
  let st := { st with k := st.k + 1, lastOut := modelOut }
  match extractJsonObjectBE loads modelOut with
  | none =>
    if st.trace ≠ [] then .brk st
    else .ret ⟨sanitize modelOut, st.trace, st.occs, st.artifacts, st.k⟩
  | some obj =>
    if ¬ obj.hasAction then
      if st.trace ≠ [] then .brk st
      else .ret ⟨sanitize modelOut, st.trace, st.occs, st.artifacts, st.k⟩
    else if obj.action = some "final" then
      .ret ⟨obj.answer, st.trace, st.occs, st.artifacts, st.k⟩
    else
      let act := obj.action
      match guardBE act obj.args with
      | .error e => .err e
      | .ok args =>
        if beAlready act st.artifacts then
          let st := if debugTrace
            then { st with trace := st.trace ++ [okT0 "redundant_tool_call" args] } else st
          .brk st
        else
          let key := callKey (actText act) args
          if st.seen.contains key then
            let st := if debugTrace
              then { st with trace := st.trace ++ [okT0 "loop_detected" args] } else st
            .brk st
          else
            let st := { st with seen := st.seen ++ [key] }
            dispatchBE fe tools ragRetrieve sanitize query modelOut st act args

/-- Backend post-loop chain: the `geojson` branch (unsanitized tuple). -/
def finGeojsonBE (st : BESt) : Option String :=
  (payRows (artGet st.artifacts "geojson")).map (fun feats =>
    "Generated GeoJSON FeatureCollection with " ++ natToStr feats.length ++
    " features. See `artifacts.geojson` in the response.")

/-- Backend `csv` branch. -/
def finCsvBE (st : BESt) : Option String :=
  (artGet st.artifacts "csv").map (fun _ =>
    "Generated CSV export. See `artifacts.csv` in the response.")

/-- Backend `stats_by_region` branch. -/
def finStatsByRegionBE (sanitize : String → String) (query : String) (st : BESt) : Option String :=
  (payRows (artGet st.artifacts "stats_by_region")).map (fun rows =>
    let top5 := rows.take 5
    let lines := (enumFrom 0 top5).filterMap (fun iv =>
      if (rowGet iv.2 "admin_region").any scalTruthy then
        some (natToStr (iv.1 + 1) ++ ". " ++ rowGetStr iv.2 "admin_region" ++ ": " ++
          rowGetStr iv.2 "count")
      else none)
    sanitize ("Top regions by count" ++
      (if subIn "gold" (pyLower query) then " (Gold)" else "") ++ ":\n" ++
      (if lines = [] then "(no rows)" else strJoinSep "\n" lines) ++
      "\n\nFull table is in `artifacts.stats_by_region`."))

/-- Backend `importance_breakdown` branch. -/
def finImportanceBE (sanitize : String → String) (st : BESt) : Option String :=
  (payRows (artGet st.artifacts "importance_breakdown")).map (fun rows =>
    let lines := rows.map (fun r =>
      "- " ++ rowGetOrUnknown r "occurrence_importance" ++ ": " ++ rowGetStr r "count")
    sanitize ("Occurrence importance breakdown:\n" ++
      (if lines = [] then "(no rows)" else strJoinSep "\n" lines) ++
      "\n\nFull breakdown is in `artifacts.importance_breakdown`."))

/-- Backend `heatmap_bins` branch. -/
def finHeatmapBE (sanitize : String → String) (st : BESt) : Option String :=
  (payRows (artGet st.artifacts "heatmap_bins")).map (fun bins =>
    let lines := (bins.take 5).filterMap (fun b =>
      if rowHas b "lat" && rowHas b "lon" then
        some ("- (" ++ rowGetStr b "lat" ++ ", " ++ rowGetStr b "lon" ++ "): " ++
          rowGetStr b "count")
      else none)
    sanitize ("Generated " ++ natToStr bins.length ++ " heatmap bins. Top 5 bins:\n" ++
      (if lines = [] then "(no bins)" else strJoinSep "\n" lines) ++
      "\n\nAll bins are in `artifacts.heatmap_bins`."))

/-- Backend `qc_summary` branch. -/
def finQcSummaryBE (sanitize : String → String) (st : BESt) : Option String :=
  match artGet st.artifacts "qc_summary" with
  | some (.row rep) =>
    some (sanitize ("QC summary:\n" ++
      "- Total rows: " ++ rowGetStr rep "total_rows" ++ "\n" ++
      "- Missing geom: " ++ rowGetStr rep "missing_geom_rows" ++ "\n" ++
      "- Null lat: " ++ rowGetStr rep "null_latitude_rows" ++ "\n" ++
      "- Null lon: " ++ rowGetStr rep "null_longitude_rows" ++ "\n" ++
      "- Zero coords (0,0): " ++ rowGetStr rep "zero_coord_rows" ++ "\n" ++
      "- Out of range: " ++ rowGetStr rep "out_of_range_rows" ++ "\n" ++
      "- Duplicate MODS ID groups: " ++ rowGetStr rep "duplicate_mods_id_groups" ++ "\n" ++
      "- Duplicate coord groups: " ++ rowGetStr rep "duplicate_coord_groups" ++ "\n" ++
      "\nFull report is in `artifacts.qc_summary`."))
  | _ => none

/-- Backend `qc_outliers` branch. -/
def finQcOutliersBE (sanitize : String → String) (st : BESt) : Option String :=
  match artGet st.artifacts "qc_outliers" with
  | some (.rep counts _) =>
    some (sanitize ("QC outliers report:\n" ++
      "- invalid_coords: " ++ rowGetStr counts "invalid_coords" ++ "\n" ++
      "- outside_expected_bbox: " ++ rowGetStr counts "outside_expected_bbox" ++ "\n" ++
      "\nSample rows are in `artifacts.qc_outliers.sample`."))
  | _ => none

/-- Backend `ogc_items_url` branch. -/
def finOgcUrlBE (sanitize : String → String) (st : BESt) : Option String :=
  match artGet st.artifacts "ogc_items_url" with
  | some (.txt url) =>
    some (sanitize ("OGC API Features items URL (use in QGIS): " ++ url ++
      "\n\nAlso see `artifacts.ogc_items_url`."))
  | _ => none

/-- Backend `qgis_instructions` branch. -/
def finQgisBE (sanitize : String → String) (st : BESt) : Option String :=
  match artGet st.artifacts "qgis_instructions" with
  | some (.txt s) => some (sanitize s)
  | _ => none

/-- Backend `spatial_geojson` branch. -/
def finSpatialGeojsonBE (sanitize : String → String) (st : BESt) : Option String :=
  (payRows (artGet st.artifacts "spatial_geojson")).map (fun feats =>
    let total := match artGet st.artifacts "spatial_total" with
      | some (.num t) => some t
      | _ => none
    sanitize ("Spatial query returned " ++ natToStr feats.length ++ " features" ++
      (match total with
       | some t => " (total=" ++ intToStr t ++ ")"
       | none => "") ++
      ". See `artifacts.spatial_geojson`."))

/-- Backend `spatial_buffer_geometry` branch (unsanitized tuple). -/
def finSpatialBufferBE (st : BESt) : Option String :=
  (artGet st.artifacts "spatial_buffer_geometry").map (fun _ =>
    "Generated buffer geometry. See `artifacts.spatial_buffer_geometry`.")

/-- Backend `spatial_nearest` branch (unsanitized tuple). -/
def finSpatialNearestBE (st : BESt) : Option String :=
  (payRows (artGet st.artifacts "spatial_nearest")).map (fun rows =>
    "Computed " ++ natToStr rows.length ++ " nearest results. See `artifacts.spatial_nearest`.")

/-- Backend `nearest_results` branch (guarded by `not last_occurrences`). -/
def finNearestBE (sanitize : String → String) (st : BESt) : Option String :=
  if (artHas st.artifacts "nearest_results") &&
     (match st.occs with | none => true | some l => l.isEmpty) then
    let nr := (payRows (artGet st.artifacts "nearest_results")).getD []
    let lines := (enumFrom 0 (nr.take 5)).map (fun iv =>
      natToStr (iv.1 + 1) ++ ". " ++
      (match rowGet iv.2 "english_name" with
       | some v => if scalTruthy v then strOfScal v else "Unknown"
       | none => "Unknown"))
    some (sanitize ("Computed " ++ natToStr nr.length ++ " nearest results. Top 5:\n" ++
      (if lines = [] then "(no results)" else strJoinSep "\n" lines) ++
      "\n\nFull list is in `artifacts.nearest_results`."))
  else none

/-- The Backend artifact-priority chain (lines 1856-1998), in source
order. -/
def finChainBE (sanitize : String → String) (query : String) (st : BESt) : Option String :=
  orElseO (finGeojsonBE st) (fun _ =>
    orElseO (finCsvBE st) (fun _ =>
      orElseO (finStatsByRegionBE sanitize query st) (fun _ =>
        orElseO (finImportanceBE sanitize st) (fun _ =>
          orElseO (finHeatmapBE sanitize st) (fun _ =>
            orElseO (finQcSummaryBE sanitize st) (fun _ =>
              orElseO (finQcOutliersBE sanitize st) (fun _ =>
                orElseO (finOgcUrlBE sanitize st) (fun _ =>
                  orElseO (finQgisBE sanitize st) (fun _ =>
                    orElseO (finSpatialGeojsonBE sanitize st) (fun _ =>
                      orElseO (finSpatialBufferBE st) (fun _ =>
                        orElseO (finSpatialNearestBE st) (fun _ =>
                          finNearestBE sanitize st))))))))))))

/-- Post-loop synthesis of the Backend `run_agent` (lines 1856-2020): the
artifact chain, else one forced-final LLM call whose output is parsed by
the always-`None` extractor and therefore returned raw (sanitized). -/
def finishBE (llm : Nat → String) (loads : String → Option ActionObj)
    (sanitize : String → String) (query : String) (st : BESt) : AgentResult :=
  match finChainBE sanitize query st with
  | some msg => ⟨msg, st.trace, st.occs, st.artifacts, st.k⟩
  | none =>
    let modelOut := llm st.k
    let k2 := st.k + 1
    match extractJsonObjectBE loads modelOut with
    | some obj =>
      if obj.hasAction ∧ obj.action = some "final" then
        ⟨sanitize obj.answer, st.trace, st.occs, st.artifacts, k2⟩
      else ⟨sanitize modelOut, st.trace, st.occs, st.artifacts, k2⟩
    | none => ⟨sanitize modelOut, st.trace, st.occs, st.artifacts, k2⟩

/-- `for _ in range(max_steps)` of the Backend `run_agent`; a guard-rail
error propagates to the caller. -/
def loopBE (llm : Nat → String) (loads : String → Option ActionObj) (fe : String → Bool)
    (tools : ToolsBE) (ragRetrieve : String → String × List Row)
    (sanitize : String → String) (debugTrace : Bool) (query : String) :
    Nat → BESt → Except String AgentResult
  | 0, st => .ok (finishBE llm loads sanitize query st)
  | fuel + 1, st =>
    match stepBE llm loads fe tools ragRetrieve sanitize debugTrace query st with
    | .cont st2 => loopBE llm loads fe tools ragRetrieve sanitize debugTrace query fuel st2
    | .brk st2 => .ok (finishBE llm loads sanitize query st2)
    | .ret r => .ok r
    | .err e => .error e

/-- The mines fast-path condition of the Backend `run_agent`
(lines 1500-1507): show/map + mine keywords, resolvable regions and a
recognised commodity. -/
def minesFastBE (dbRegions : List String) (query : String) : Option (String × String) :=
  let ql := pyLower query
  if (subIn "show" ql || subIn "map" ql) && subIn "mine" ql then
    let regions := inferRegionsFromQuery dbRegions query
    match inferCommodityFromQuery query, regions with
    | some c, r :: rs => some (c, strJoinSep ", " (r :: rs))
    | _, _ => none
  else none

/-- The mines fast-path body of the Backend `run_agent`
(lines 1509-1537): one `geojson_export` call, zero LLM calls. -/
def minesRunBE (tools : ToolsBE) (sanitize : String → String)
    (cr : String × String) : Except String AgentResult :=
  let args : Args :=
    [("commodity", .ascal (.sstr cr.1)), ("region", .ascal (.sstr cr.2)),
     ("exploration_status", .ascal (.sstr "mine")), ("limit", .ascal (.snum 400))]
  Except.bind (tools.geojson_export args) (fun feats =>
    let answer :=
      "I mapped " ++ cr.1 ++ " mine locations in " ++ cr.2 ++
      " (filtered by exploration_status containing \x27mine\x27). Showing " ++
      natToStr feats.length ++ " points on the map."
    Except.ok ⟨sanitize answer, [okT "auto_geojson_export" args feats.length], none,
      artSet [] "geojson" (.rows feats), 0⟩)

/-- The non-mines body of the Backend `run_agent`: the uploaded-geometry
fast paths, the upfront RAG retrieval, then the bounded loop. -/
def runAgentBEMain (env : Env) (llm : Nat → String) (loads : String → Option ActionObj)
    (tools : ToolsBE) (fe : String → Bool) (sanitize : String → String)
    (ragRetrieve : String → String × List Row)
    (uploaded : Option AVal) (chatHistory : List ChatMsg)
    (query : String) (maxSteps : Nat) : Except String AgentResult :=
  let debugTrace := pyLower (getenvD env "AGENT_DEBUG_TRACE" "0") ∈ ["1", "true", "yes"]
  let ql2 := pyLower query
  if uploaded.isSome && (subIn "nearest" ql2 || subIn "closest" ql2) then
    Except.bind (tools.spatial_nearest
        [("geometry", .ascal .snone), ("limit", .ascal (.snum 25))]) (fun rows =>
      Except.ok ⟨"Computed " ++ natToStr rows.length ++
        " nearest results. See `artifacts.spatial_nearest`.",
        [], none, artSet [] "spatial_nearest" (.rows rows), 0⟩)
  else if uploaded.isSome && subIn "buffer" ql2 then
    Except.bind (tools.spatial_buffer
        [("geometry", .ascal .snone), ("distance_m", .ascal (.snum 50000))]) (fun geom =>
      Except.ok ⟨"Generated buffer geometry. See `artifacts.spatial_buffer_geometry`.",
        [], none, artSet [] "spatial_buffer_geometry" (.geo geom), 0⟩)
  else
    let pr := ragRetrieve query
    let occs0 := if pr.2 ≠ [] then some pr.2 else none
    let scratch0 := "\n- RAG retrieved " ++ natToStr pr.2.length ++
      " occurrences; context chars: " ++ natToStr pr.1.length ++ "\n"
    let historyBlock := strJoinSep "\n"
      (((chatHistory.drop (chatHistory.length - 12)).map (fun m =>
        (if m.role = "user" then "User: " else "Muhanned: ") ++ m.content)))
    let _ := historyBlock
    loopBE llm loads fe tools ragRetrieve sanitize debugTrace query maxSteps
      ⟨0, [], occs0, [], [], scratch0, pr.1, ""⟩

/-- `run_agent` of the Backend variant (lines 1442-2020): the mines
fast path, else the uploaded-geometry fast paths, the upfront RAG
retrieval and the bounded loop. -/
def runAgentBE (env : Env) (llm : Nat → String) (loads : String → Option ActionObj)
    (tools : ToolsBE) (fe : String → Bool) (sanitize : String → String)
    (ragRetrieve : String → String × List Row) (dbRegions : List String)
    (uploaded : Option AVal) (chatHistory : List ChatMsg)
    (query : String) (maxSteps : Nat) : Except String AgentResult :=
  match minesFastBE dbRegions query with
  | some cr => minesRunBE tools sanitize cr
  | none => runAgentBEMain env llm loads tools fe sanitize ragRetrieve uploaded
      chatHistory query maxSteps

/-! ## Backend variant: `run_workflow`
(Backend agent_service.py, lines 930-1435) -/

/-- A GeoJSON Feature of an uploaded FeatureCollection (`none` entries
model list items that are not Feature dicts). -/
structure Feature where
  geom : Option AVal
  props : Row
  deriving Repr

/-- An uploaded FeatureCollection, as its feature list. -/
abbrev FC := List (Option Feature)

/-- One planned step: `{"action", "args", "why"}`. -/
structure PlanStep where
  action : String
  args : Args
  why : Option String
  deriving DecidableEq, Repr

/-- The GIS computation collaborators of the heavy workflow branches
(shapely overlays, dissolve grouping, spatial joins, rasterio zonal
stats), abstracted at the call boundary; the validations guarding them
stay in the embedding. -/
structure GisW where
  shapely_overlay : String → AVal → AVal → Except String AVal
  dissolve_impl : FC → String → Except String (List Row)
  join_counts_impl : FC → String → String → Except String (List Row)
  join_nearest_impl : FC → String → Except String (List Row)
  zonal : String → Option AVal → Int → Except String Row

/-- The parsed-JSON view of the planning reply: the `plan` value when it
is a list, entries being `none` for non-dict steps and carrying `action`
only when it is a string. -/
structure WStep where
  action : Option String
  args : Args
  why : Option String
  deriving Repr

/-- Parsed planning object. -/
structure WObj where
  plan : Option (List (Option WStep))
  deriving Repr

/-- The workflow execution state (`tool_trace`, `last_occurrences`,
`artifacts`). -/
structure WfSt where
  trace : List TraceEntry
  occs : Option (List Row)
  artifacts : Artifacts
  deriving Repr

/-- What `run_workflow` returns, with the LLM call count. -/
structure WfResult where
  answer : String
  plan : List PlanStep
  trace : List TraceEntry
  occs : Option (List Row)
  artifacts : Artifacts
  llmCalls : Nat
  deriving Repr

/-- Deterministic plan assembly of `run_workflow` (lines 960-1002),
evaluated on the lowercased query; every matching category contributes a
step. -/
def planDetWF (uploaded : Option AVal) (uploadedFc : Option FC) (ql : String) : List PlanStep :=
  (if uploaded.isSome then
    (if subIn "buffer" ql then
      [⟨"spatial_buffer", [("geometry", .ascal .snone), ("distance_m", .ascal (.snum 50000))],
        some "User requested buffer of uploaded AOI."⟩] else []) ++
    (if subIn "nearest" ql || subIn "closest" ql then
      [⟨"spatial_nearest", [("geometry", .ascal .snone), ("limit", .ascal (.snum 25))],
        some "User requested nearest to uploaded AOI."⟩] else []) ++
    (if subIn "intersect" ql || subIn "clip" ql then
      [⟨"spatial_query", [("op", .ascal (.sstr "intersects")), ("geometry", .ascal .snone),
        ("geometry_ref", .ascal (.sstr "uploaded")), ("limit", .ascal (.snum 500))],
        some "User requested intersection with uploaded AOI."⟩] else [])
   else []) ++
  (if subIn "qc" ql || subIn "quality" ql || subIn "duplicates" ql then
    [⟨"qc_summary", [], some "User asked for QC/quality."⟩] else []) ++
  (if subIn "commodity" ql || subIn "commodities" ql || subIn "top commodities" ql then
    [⟨"commodity_stats", [("limit", .ascal (.snum 15))],
      some "User asked for commodity breakdown/top commodities."⟩] else []) ++
  (if subIn "region" ql || subIn "regions" ql || subIn "by region" ql then
    [⟨"stats_by_region", [("limit", .ascal (.snum 20))],
      some "User asked for counts by region."⟩] else []) ++
  (if subIn "importance" ql then
    [⟨"importance_breakdown", [], some "User asked for importance breakdown."⟩] else []) ++
  (if subIn "heatmap" ql || subIn "density" ql || subIn "hotspot" ql then
    [⟨"heatmap_bins", [("bin_km", .ascal (.snum 50)), ("limit", .ascal (.snum 4000))],
      some "User asked for a spatial density/heatmap view."⟩] else []) ++
  (if uploadedFc.isSome then
    (if subIn "dissolve" ql then
      let byProp := if subIn "group" ql then "group" else if subIn "name" ql then "name" else "id"
      [⟨"spatial_dissolve", [("feature_collection_ref", .ascal (.sstr "uploaded")),
        ("by_property", .ascal (.sstr byProp))],
        some "User requested dissolve on uploaded features."⟩] else []) ++
    (if subIn "spatial join" ql || (subIn "join" ql && (subIn "count" ql || subIn "counts" ql)) then
      [⟨"spatial_join_mods_counts", [("feature_collection_ref", .ascal (.sstr "uploaded")),
        ("predicate", .ascal (.sstr "intersects")), ("id_property", .ascal (.sstr "id"))],
        some "User requested counts per polygon (spatial join)."⟩] else []) ++
    (if subIn "nearest join" ql || (subIn "join" ql && subIn "nearest" ql) then
      [⟨"spatial_join_mods_nearest", [("feature_collection_ref", .ascal (.sstr "uploaded")),
        ("id_property", .ascal (.sstr "id"))],
        some "User requested nearest join to MODS."⟩] else []) ++
    (if subIn "overlay" ql || subIn "intersection" ql || subIn "union" ql || subIn "difference" ql then
      let op := if subIn "union" ql then "union"
        else if subIn "difference" ql then "difference"
        else if subIn "symmetric" ql then "symmetric_difference"
        else "intersection"
      [⟨"spatial_overlay", [("op", .ascal (.sstr op)),
        ("feature_collection_ref", .ascal (.sstr "uploaded")),
        ("a_index", .ascal (.snum 0)), ("b_index", .ascal (.snum 1))],
        some "User requested an overlay operation between uploaded geometries."⟩] else [])
   else [])

/-- The argument-normalization prefix of the `_exec` gate (region and
occurrence-type normalization, per-tool clamps). -/
def gateNormWF (action : String) (args : Args) : Except String Args := do
  let args := if ahas args "region" then
      aset args "region" (match normalizeRegionValue (aget args "region") with
        | some s => .ascal (.sstr s)
        | none => .ascal .snone)
    else args
  let args ← if ahas args "occurrence_type" then do
      let v ← normalizeOccurrenceTypeVal ((aget args "occurrence_type").getD (.ascal .snone))
      pure (aset args "occurrence_type" (match v with
        | some s => .ascal (.sstr s)
        | none => .ascal .snone))
    else pure args
  let args := if action = "search_mods" ∨ action = "nearby_mods" ∨
      action = "bbox_mods" ∨ action = "nearest_mods" then
      aset args "limit" (.ascal (.snum (clampInt (aget args "limit") 1 200 25)))
    else args
  let args := if action = "geojson_export" then
      aset args "limit" (.ascal (.snum (clampInt (aget args "limit") 1 2000 200)))
    else args
  let args := if action = "csv_export" then
      aset args "limit" (.ascal (.snum (clampInt (aget args "limit") 1 5000 2000)))
    else args
  let args := if action = "spatial_query" then
      let args := aset args "limit" (.ascal (.snum (clampInt (aget args "limit") 1 5000 500)))
      let args := aset args "offset" (.ascal (.snum (clampInt (aget args "offset") 0 500000 0)))
      if aget args "op" = some (.ascal (.sstr "dwithin")) then
        aset args "distance_m" (.ascal (.snum (clampFloat (aget args "distance_m") 0 2000000 50000)))
      else args
    else args
  let args := if action = "spatial_buffer" then
      aset args "distance_m" (.ascal (.snum (clampFloat (aget args "distance_m") 0 2000000 50000)))
    else args
  let args := if action = "spatial_nearest" then
      aset args "limit" (.ascal (.snum (clampInt (aget args "limit") 1 500 25)))
    else args
  return args

/-- The governance checks of the `_exec` gate. -/
def gateCheckWF (fe : String → Bool) (action : String) (args : Args) :
    Except String Args :=
  if pyStartsWith action "qc_" ∧ ¬ fe "qc" then
    .error "QC is disabled by data governance policy."
  else if pyStartsWith action "spatial_" ∧ ¬ fe "spatial" then
    .error "Spatial operations are disabled by data governance policy."
  else if pyStartsWith action "rasters_" ∧ ¬ fe "rasters" then
    .error "Raster endpoints are disabled by data governance policy."
  else
    .ok args

/-- Normalization, caps and governance gating of `run_workflow._exec`
(lines 1044-1075); an `Except.error` is the raised `ValueError`, caught
by the per-step `try/except` of the plan executor. -/
def execGateWF (fe : String → Bool) (action : String) (args : Args) :
    Except String Args :=
  Except.bind (gateNormWF action args) (fun args2 => gateCheckWF fe action args2)

/-- State update of a successful `_exec` dispatch. -/
def wfOk (st : WfSt) (entry : TraceEntry) (artUpd : Artifacts → Artifacts)
    (newOccs : Option (List Row)) : WfSt :=
  { st with
      occs := match newOccs with
        | some l => some l
        | none => st.occs
      artifacts := artUpd st.artifacts
      trace := st.trace ++ [entry] }

/-- Resolve the FeatureCollection of a GIS step: `feature_collection_ref
= "uploaded"` uses the request-scoped upload; inline FeatureCollections
lie outside the modelled argument space. -/
def wfResolveFc (uploadedFc : Option FC) (args : Args) : Option FC :=
  if aget args "feature_collection_ref" = some (.ascal (.sstr "uploaded")) then uploadedFc
  else none

/-- The dispatch of `run_workflow._exec` (lines 1093-1344), after the
gates; each branch writes its artifact keys and trace record, and raises
(`Except.error`) on its own validation failures. -/
def execDispatchWF (tools : ToolsBE) (gis : GisW) (uploaded : Option AVal)
    (uploadedFc : Option FC) (action : String) (args : Args) (st : WfSt) :
    Except String WfSt :=
  if action = "qc_summary" then do
    let rep ← tools.qc_summary ()
    return wfOk st ⟨"qc_summary", [], none, none, rep.map (·.1)⟩
      (fun a => artSet a "qc_summary" (.row rep)) none
  else if action = "qc_duplicates_mods_id" then do
    let rows ← tools.qc_duplicates_mods_id args
    return wfOk st (okT "qc_duplicates_mods_id" args rows.length)
      (fun a => artSet a "qc_duplicates_mods_id" (.rows rows)) none
  else if action = "qc_duplicates_coords" then do
    let rows ← tools.qc_duplicates_coords args
    return wfOk st (okT "qc_duplicates_coords" args rows.length)
      (fun a => artSet a "qc_duplicates_coords" (.rows rows)) none
  else if action = "qc_outliers" then do
    let pr ← tools.qc_outliers args
    return wfOk st (okT "qc_outliers" args pr.2.length)
      (fun a => artSet a "qc_outliers" (.rep pr.1 pr.2)) none
  else if action = "spatial_query" then do
    let pr ← tools.spatial_query args
    return wfOk st (okT "spatial_query" args pr.2.length)
      (fun a => artSet (artSet a "spatial_total" (.num pr.1)) "spatial_geojson" (.rows pr.2)) none
  else if action = "spatial_buffer" then do
    let geom ← tools.spatial_buffer args
    return wfOk st (okT0 "spatial_buffer" args)
      (fun a => artSet a "spatial_buffer_geometry" (.geo geom)) none
  else if action = "spatial_nearest" then do
    let rows ← tools.spatial_nearest args
    return wfOk st (okT "spatial_nearest" args rows.length)
      (fun a => artSet a "spatial_nearest" (.rows rows)) none
  else if action = "spatial_overlay" then
    let fc := wfResolveFc uploadedFc args
    let ab : Option AVal × Option AVal := match fc with
      | some feats =>
        let ai := (clampInt (aget args "a_index") 0 999999 0).toNat
        let bi := (clampInt (aget args "b_index") 0 999999 1).toNat
        match feats.get? ai, feats.get? bi with
        | some (some fa), some (some fb) => (fa.geom, fb.geom)
        | _, _ => (none, none)
      | none => (none, none)
    match ab with
    | (some a, some b) =>
      let op := match aget args "op" with
        | some v => if avTruthy v then pyStrOf v else "intersection"
        | none => "intersection"
      if op = "union" ∨ op = "intersection" ∨ op = "difference" ∨
         op = "symmetric_difference" then do
        let out ← gis.shapely_overlay op a b
        return wfOk st (okT0 "spatial_overlay" args)
          (fun ar => artSet ar "overlay_geometry" (.geo out)) none
      else .error ("Unsupported overlay op: " ++ op)
    | _ => .error "spatial_overlay requires geometries a and b (or an uploaded FeatureCollection with >=2 features)."
  else if action = "spatial_dissolve" then
    match wfResolveFc uploadedFc args with
    | none => .error "spatial_dissolve requires a GeoJSON FeatureCollection."
    | some feats =>
      let byProp := pyStrip (match aget args "by_property" with
        | some v => if avTruthy v then pyStrOf v else ""
        | none => "")
      if byProp = "" then .error "spatial_dissolve requires by_property."
      else do
        let outFeats ← gis.dissolve_impl feats byProp
        return wfOk st ⟨"spatial_dissolve", [("by_property", .ascal (.sstr byProp))],
            none, some outFeats.length, []⟩
          (fun a => artSet a "dissolved_feature_collection" (.rows outFeats)) none
  else if action = "spatial_join_mods_counts" then
    match wfResolveFc uploadedFc args with
    | none => .error "spatial_join_mods_counts requires a GeoJSON FeatureCollection."
    | some feats => do
      let predicate := match aget args "predicate" with
        | some v => if avTruthy v then pyStrOf v else "intersects"
        | none => "intersects"
      let idProp := match aget args "id_property" with
        | some v => if avTruthy v then pyStrOf v else "id"
        | none => "id"
      let outFeats ← gis.join_counts_impl feats predicate idProp
      return wfOk st ⟨"spatial_join_mods_counts", [("predicate", .ascal (.sstr predicate))],
          none, some outFeats.length, []⟩
        (fun a => artSet a "join_counts_feature_collection" (.rows outFeats)) none
  else if action = "spatial_join_mods_nearest" then
    match wfResolveFc uploadedFc args with
    | none => .error "spatial_join_mods_nearest requires a GeoJSON FeatureCollection."
    | some feats => do
      let idProp := match aget args "id_property" with
        | some v => if avTruthy v then pyStrOf v else "id"
        | none => "id"
      let outRows ← gis.join_nearest_impl feats idProp
      return wfOk st ⟨"spatial_join_mods_nearest", [("id_property", .ascal (.sstr idProp))],
          none, some outRows.length, []⟩
        (fun a => artSet a "join_nearest_results" (.rows outRows)) none
  else if action = "rasters_zonal_stats" then
    let rasterId := pyStrip (match aget args "raster_id" with
      | some v => if avTruthy v then pyStrOf v else ""
      | none => "")
    if rasterId = "" then .error "rasters_zonal_stats requires raster_id"
    else
      let geom := if aget args "geometry_ref" = some (.ascal (.sstr "uploaded"))
        then uploaded else none
      match geom with
      | none => .error "rasters_zonal_stats requires a GeoJSON geometry (or geometry_ref=\x27uploaded\x27)."
      | some g => do
        let band := clampInt (aget args "band") 1 1000 1
        let stats ← gis.zonal rasterId (some g) band
        let entry : Row := [("raster_id", .sstr rasterId), ("band", .snum band)] ++ stats
        let zl := (payRows (artGet st.artifacts "zonal_stats")).getD []
        return wfOk st (okT0 "rasters_zonal_stats"
            [("raster_id", .ascal (.sstr rasterId)), ("band", .ascal (.snum band))])
          (fun a => artSet a "zonal_stats" (.rows (zl ++ [entry]))) none
  else if action = "ogc_items_link" then do
    let url ← tools.ogc_items_link args
    return wfOk st ⟨"ogc_items_link", args, none, none, [url]⟩
      (fun a => artSet a "ogc_items_url" (.txt url)) none
  else if action = "publish_layer_instructions" then
    let fromArgs : Option String := match aget args "ogc_items_url" with
      | some v => if avTruthy v then some (pyStrOf v) else none
      | none => none
    let fromArt : Option String := match artGet st.artifacts "ogc_items_url" with
      | some (.txt s) => if s ≠ "" then some s else none
      | _ => none
    let url0 := pyStrip ((fromArgs.orElse (fun _ => fromArt)).getD "")
    let urlE : Except String String :=
      if url0 = "" then tools.ogc_items_link [] else .ok url0
    match urlE with
    | .ok url => do
      let instructions :=
        "QGIS (OGC API Features) quick add:\n" ++
        "1) Open QGIS → Data Source Manager\n" ++
        "2) Find \x27OGC API - Features\x27\n" ++
        "3) New connection → URL: " ++ url ++ "\n" ++
        "4) Connect → choose \x27mods_occurrences\x27 → Add\n"
      return wfOk st ⟨"publish_layer_instructions",
          [("ogc_items_url", .ascal (.sstr url))], none, some instructions.length, []⟩
        (fun a => artSet a "qgis_instructions" (.txt instructions)) none
    | .error e => .error e
  else if action = "geojson_export" then do
    let feats ← tools.geojson_export args
    return wfOk st (okT "geojson_export" args feats.length)
      (fun a => artSet a "geojson" (.rows feats)) none
  else if action = "csv_export" then do
    let csvText ← tools.csv_export args
    return wfOk st (okT "csv_export" args csvText.length)
      (fun a => artSet a "csv" (.txt csvText)) none
  else if action = "search_mods" then do
    let rows ← tools.search_mods args
    return wfOk st (okT "search_mods" args rows.length) id (some rows)
  else if action = "nearby_mods" then do
    let rows ← tools.nearby_mods args
    return wfOk st (okT "nearby_mods" args rows.length) id (some rows)
  else if action = "bbox_mods" then do
    let rows ← tools.bbox_mods args
    return wfOk st (okT "bbox_mods" args rows.length) id (some rows)
  else if action = "nearest_mods" then do
    let rows ← tools.nearest_mods args
    return wfOk st (okT "nearest_mods" args rows.length)
      (fun a => artSet a "nearest_results" (.rows rows)) none
  else if action = "stats_by_region" then do
    let rows ← tools.stats_by_region args
    return wfOk st (okT "stats_by_region" args rows.length)
      (fun a => artSet a "stats_by_region" (.rows rows)) none
  else if action = "importance_breakdown" then do
    let rows ← tools.importance_breakdown args
    return wfOk st (okT "importance_breakdown" args rows.length)
      (fun a => artSet a "importance_breakdown" (.rows rows)) none
  else if action = "heatmap_bins" then do
    let rows ← tools.heatmap_bins args
    return wfOk st (okT "heatmap_bins" args rows.length)
      (fun a => artSet a "heatmap_bins" (.rows rows)) none
  else if action = "commodity_stats" then do
    let rows ← tools.commodity_stats args
    return wfOk st (okT "commodity_stats" args rows.length)
      (fun a => artSet a "commodity_stats" (.rows rows)) none
  else
    return { st with trace := st.trace ++ [okT0 "unknown_step" args] }

/-- `run_workflow._exec` (lines 1044-1344): gate then dispatch. -/
def execWF (fe : String → Bool) (tools : ToolsBE) (gis : GisW) (uploaded : Option AVal)
    (uploadedFc : Option FC) (action : String) (args : Args) (st : WfSt) :
    Except String WfSt := do
  let args ← execGateWF fe action args
  execDispatchWF tools gis uploaded uploadedFc action args st

/-- The plan-execution loop of `run_workflow` (lines 1347-1357): each
step runs under `try/except`; a raise is recorded as a `{tool, args,
error}` trace entry and execution continues. -/
def runStepsWF (fe : String → Bool) (tools : ToolsBE) (gis : GisW) (uploaded : Option AVal)
    (uploadedFc : Option FC) : List PlanStep → WfSt → WfSt
  | [], st => st
  | step :: rest, st =>
    let st2 := if step.action = "" then st
      else match execWF fe tools gis uploaded uploadedFc step.action step.args st with
        | .ok st2 => st2
        | .error e => { st with trace := st.trace ++ [errT step.action step.args e] }
    runStepsWF fe tools gis uploaded uploadedFc rest st2

/-- `json.dumps` of a flat report row in insertion order (as the offline
summary does, without `sort_keys`). -/
def rowJson (r : Row) : String :=
  "\x7b" ++ strJoinSep ", " (r.map fun kv => "\"" ++ kv.1 ++ "\": " ++ dumpsScal kv.2) ++ "\x7d"

/-- `_build_vega_charts` (lines 834-927): one chart per populated,
non-empty rows artifact among the four chartable keys (the Vega-Lite
spec constants are presentation data and are not modelled). -/
def buildVegaCharts (artifacts : Artifacts) : List Row :=
  (match payRows (artGet artifacts "stats_by_region") with
   | some (r :: rs) =>
     [[("name", AScal.sstr "stats_by_region"),
       ("title", AScal.sstr "Occurrences by admin region"),
       ("rows", AScal.snum ((r :: rs).length : Int))]]
   | _ => []) ++
  (match payRows (artGet artifacts "commodity_stats") with
   | some (r :: rs) =>
     [[("name", AScal.sstr "commodity_stats"),
       ("title", AScal.sstr "Top commodities (by count)"),
       ("rows", AScal.snum ((r :: rs).length : Int))]]
   | _ => []) ++
  (match payRows (artGet artifacts "importance_breakdown") with
   | some (r :: rs) =>
     [[("name", AScal.sstr "importance_breakdown"),
       ("title", AScal.sstr "Occurrence importance breakdown"),
       ("rows", AScal.snum ((r :: rs).length : Int))]]
   | _ => []) ++
  (match payRows (artGet artifacts "heatmap_bins") with
   | some (r :: rs) =>
     [[("name", AScal.sstr "heatmap_bins"),
       ("title", AScal.sstr "Spatial intensity (bin heatmap)"),
       ("rows", AScal.snum ((r :: rs).length : Int))]]
   | _ => [])

/-- The `use_llm=False` deterministic bullet summary of `run_workflow`
(lines 1369-1386). -/
def offlineBitsWF (artifacts : Artifacts) : String :=
  let bits : List String :=
    (match artGet artifacts "qc_summary" with
     | some (.row rep) => ["QC summary: " ++ rowJson rep]
     | _ => []) ++
    (match artGet artifacts "ogc_items_url" with
     | some (.txt url) => if url ≠ "" then ["OGC items URL: " ++ url] else []
     | _ => []) ++
    (match artGet artifacts "qgis_instructions" with
     | some (.txt s) => if s ≠ "" then [s] else []
     | _ => []) ++
    (match artGet artifacts "spatial_total" with
     | some (.num t) => ["Spatial results total: " ++ intToStr t]
     | _ => []) ++
    (match payRows (artGet artifacts "spatial_nearest") with
     | some (r :: rs) => ["Spatial nearest returned: " ++ natToStr (r :: rs).length]
     | _ => []) ++
    (match payRows (artGet artifacts "geojson") with
     | some feats => ["GeoJSON export features: " ++ natToStr feats.length]
     | _ => []) ++
    (match artGet artifacts "csv" with
     | some (.txt s) => if s ≠ "" then ["CSV export bytes: " ++ natToStr s.length] else []
     | _ => [])
  if bits = [] then "Workflow executed (offline mode). No summary artifacts were produced."
  else strJoinSep "\n" bits

/-- The LLM-unavailable fallback bullet summary of `run_workflow`
(lines 1415-1433), built when the final LLM reply starts with a failure
sentinel. -/
def llmFallbackBitsWF (artifacts : Artifacts) : String :=
  let bits : List String :=
    ["LLM summary was unavailable, so here is an automatic summary of the computed results:"] ++
    (match artGet artifacts "qc_summary" with
     | some (.row rep) => ["- QC summary: " ++ rowJson rep]
     | _ => []) ++
    (match payRows (artGet artifacts "commodity_stats") with
     | some (r :: rs) => ["- Top commodities rows: " ++ natToStr (r :: rs).length]
     | _ => []) ++
    (match payRows (artGet artifacts "stats_by_region") with
     | some (r :: rs) => ["- Regions rows: " ++ natToStr (r :: rs).length]
     | _ => []) ++
    (match payRows (artGet artifacts "importance_breakdown") with
     | some (r :: rs) => ["- Importance rows: " ++ natToStr (r :: rs).length]
     | _ => []) ++
    (match payRows (artGet artifacts "heatmap_bins") with
     | some (r :: rs) => ["- Heatmap bins: " ++ natToStr (r :: rs).length]
     | _ => []) ++
    (match payRows (artGet artifacts "charts") with
     | some (r :: rs) => ["- Charts generated: " ++ natToStr (r :: rs).length ++ " (see artifacts.charts)"]
     | _ => []) ++
    (match artGet artifacts "ogc_items_url" with
     | some (.txt url) => if url ≠ "" then ["- OGC items URL: " ++ url] else []
     | _ => [])
  strJoinSep "\n" bits

/-- Final answer synthesis of `run_workflow` (lines 1359-1435): attach
the RAG occurrences and charts, then either the offline bullet summary,
or one LLM summary call with the sentinel-triggered deterministic
fallback; the answer is sanitized on return. -/
def finalizeWF (llm : Nat → String) (ragRetrieve : String → String × List Row)
    (sanitize : String → String) (useLlm : Bool) (query : String)
    (plan : List PlanStep) (k : Nat) (st : WfSt) : WfResult :=
  let pr := ragRetrieve query
  let occs := if (!pr.2.isEmpty) &&
      (match st.occs with | none => true | some l => l.isEmpty)
    then some pr.2 else st.occs
  let charts := buildVegaCharts st.artifacts
  let artifacts := if charts ≠ [] then artSet st.artifacts "charts" (.rows charts)
    else st.artifacts
  if ¬ useLlm then
    ⟨sanitize (offlineBitsWF artifacts), plan, st.trace, occs, artifacts, k⟩
  else
    let answer := llm k
    let answer := if pyStartsWith answer "LLM call timed out" || pyStartsWith answer "LLM error"
      then llmFallbackBitsWF artifacts
      else answer
    ⟨sanitize answer, plan, st.trace, occs, artifacts, k + 1⟩

/-- `run_workflow` (lines 930-1435): deterministic plan assembly, one
optional LLM planning call parsed by the loose extractor, partial-failure
tolerant execution of at most `max_steps` steps, and summary synthesis.
It is total: no exception escapes to the caller. -/
def runWorkflowBE (llm : Nat → String) (loadsW : String → Option WObj)
    (fe : String → Bool) (tools : ToolsBE) (gis : GisW)
    (ragRetrieve : String → String × List Row) (sanitize : String → String)
    (uploaded : Option AVal) (uploadedFc : Option FC)
    (query : String) (maxSteps : Nat) (useLlm : Bool) : WfResult :=
  let ql := pyLower query
  let plan0 := planDetWF uploaded uploadedFc ql
  let pk : List PlanStep × Nat :=
    if plan0.isEmpty && useLlm then
      let _ := ragRetrieve query
      let modelOut := llm 0
      let steps := match extractJsonObjectLoose loadsW modelOut with
        | some obj =>
          (match obj.plan with
           | some l => (l.take maxSteps).filterMap (fun os =>
               os.bind (fun s => s.action.map (fun a => (⟨a, s.args, s.why⟩ : PlanStep))))
           | none => [])
        | none => []
      (steps, 1)
    else (plan0, 0)
  let st := runStepsWF fe tools gis uploaded uploadedFc (pk.1.take maxSteps) ⟨[], none, []⟩
  finalizeWF llm ragRetrieve sanitize useLlm query pk.1 pk.2 st

/-! ## Library of facts about the embedding -/

/-- Reading through an artifact write. -/
theorem artGet_artSet (a : Artifacts) (k : String) (v : PayV) (k2 : String) :
    artGet (artSet a k v) k2 = if k = k2 then some v else artGet a k2 := by
  induction a with
  | nil => simp [artSet, artGet]
  | cons hd tl ih =>
    obtain ⟨k1, w⟩ := hd
    by_cases h1 : k1 = k
    · subst h1
      by_cases h2 : k1 = k2 <;> simp [artSet, artGet, h2]
    · by_cases h2 : k1 = k2
      · subst h2
        simp [artSet, artGet, h1, (Ne.symm h1 : k ≠ k1)]
      · by_cases h3 : k = k2
        · subst h3
          simp [artSet, artGet, h1, h2, ih]
        · simp [artSet, artGet, h1, h2, h3, ih]

/-- Presence through an artifact write. -/
theorem artHas_artSet (a : Artifacts) (k : String) (v : PayV) (k2 : String) :
    artHas (artSet a k v) k2 = if k = k2 then true else artHas a k2 := by
  by_cases h : k = k2 <;> simp [artHas, artGet_artSet, h]

/-- The Backend `_extract_json_object` returns `None` on every input, for
every parse function: its parse tail is unreachable code. -/
theorem extractJsonObjectBE_eq_none {α : Type} (loads : String → Option α) (text : String) :
    extractJsonObjectBE loads text = none := by
  simp only [extractJsonObjectBE]
  split <;> rfl

/-- Because its extractor always yields `None`, one Backend loop
iteration either breaks (tools already ran) or returns the raw model
output sanitized; it never dispatches a tool. -/
theorem stepBE_spec (llm : Nat → String) (loads : String → Option ActionObj)
    (fe : String → Bool) (tools : ToolsBE) (ragRetrieve : String → String × List Row)
    (sanitize : String → String) (debugTrace : Bool) (query : String) (st : BESt) :
    stepBE llm loads fe tools ragRetrieve sanitize debugTrace query st =
      (if st.trace ≠ [] then
        .brk { st with k := st.k + 1, lastOut := llm st.k }
      else
        .ret ⟨sanitize (llm st.k), st.trace, st.occs, st.artifacts, st.k + 1⟩) := by
  simp only [stepBE, extractJsonObjectBE_eq_none]

/-- Reading through a chat-store write. -/
theorem storeGet_storePut (st : ChatStore) (sid : String) (ms : List ChatMsg) (sid2 : String) :
    storeGet (storePut st sid ms) sid2 = if sid = sid2 then ms else storeGet st sid2 := by
  induction st with
  | nil => simp [storePut, storeGet]
  | cons hd tl ih =>
    obtain ⟨k1, w⟩ := hd
    by_cases h1 : k1 = sid
    · subst h1
      by_cases h2 : k1 = sid2 <;> simp [storePut, storeGet, h2]
    · by_cases h2 : k1 = sid2
      · subst h2
        simp [storePut, storeGet, h1, (Ne.symm h1 : sid ≠ k1)]
      · by_cases h3 : sid = sid2
        · subst h3
          simp [storePut, storeGet, h1, h2, ih]
        · simp [storePut, storeGet, h1, h2, h3, ih]

/-- Reading through `reset_session`. -/
theorem storeGet_resetSession (st : ChatStore) (sid sid2 : String) :
    storeGet (resetSession st sid) sid2 = if sid2 = sid then [] else storeGet st sid2 := by
  induction st with
  | nil => simp [resetSession, storeGet]
  | cons hd tl ih =>
    obtain ⟨k1, w⟩ := hd
    by_cases h1 : k1 = sid
    · by_cases h2 : sid2 = sid
      · have ih2 := ih
        rw [h2] at ih2
        simp only [if_pos rfl] at ih2
        simp [resetSession, storeGet, h1, h2, ih2]
      · have h4 : ¬ k1 = sid2 := by
          rw [h1]
          exact fun hh => h2 hh.symm
        have h5 : ¬ sid = sid2 := fun hh => h2 hh.symm
        simp [resetSession, storeGet, h1, h2, h4, h5, ih]
    · by_cases h2 : k1 = sid2
      · have h3 : ¬ sid2 = sid := by
          rw [← h2]
          exact fun hh => h1 hh
        simp [resetSession, storeGet, h1, h2, h3]
      · simp [resetSession, storeGet, h1, h2, ih]

/-! ## Shared concrete collaborator instances used by the closed runs -/

/-- An empty process environment. -/
def env0 : Env := fun _ => none

/-- A parse function that recognises nothing. -/
def loads0 : String → Option ActionObj := fun _ => none

/-- A RAG retriever returning no context and no records. -/
def rag0 : String → String × List Row := fun _ => ("", [])

/-- Geo_Cortex tool executors that succeed with empty results. -/
def toolsGC0 : ToolsGC where
  search_mods := fun _ => .ok []
  nearby_mods := fun _ => .ok []
  commodity_stats := fun _ => .ok []
  bbox_mods := fun _ => .ok []
  nearest_mods := fun _ => .ok []
  geojson_export := fun _ => .ok []
  csv_export := fun _ => .ok ""
  stats_by_region := fun _ => .ok []
  stats_by_type := fun _ => .ok []
  stats_region_by_type := fun _ => .ok []
  importance_breakdown := fun _ => .ok []
  heatmap_bins := fun _ => .ok []
  handle_query := fun _ => .ok ("", [])

/-- Backend tool executors that succeed with empty results. -/
def toolsBE0 : ToolsBE where
  search_mods := fun _ => .ok []
  nearby_mods := fun _ => .ok []
  commodity_stats := fun _ => .ok []
  bbox_mods := fun _ => .ok []
  nearest_mods := fun _ => .ok []
  geojson_export := fun _ => .ok []
  csv_export := fun _ => .ok ""
  stats_by_region := fun _ => .ok []
  importance_breakdown := fun _ => .ok []
  heatmap_bins := fun _ => .ok []
  qc_summary := fun _ => .ok []
  qc_duplicates_mods_id := fun _ => .ok []
  qc_duplicates_coords := fun _ => .ok []
  qc_outliers := fun _ => .ok ([], [])
  ogc_items_link := fun _ => .ok "http://127.0.0.1:8000/ogc/collections/mods_occurrences/items"
  spatial_query := fun _ => .ok (0, [])
  spatial_buffer := fun _ => .ok (.ascal .snone)
  spatial_nearest := fun _ => .ok []

/-- GIS collaborators that succeed with empty results. -/
def gis0 : GisW where
  shapely_overlay := fun _ a _ => .ok a
  dissolve_impl := fun _ _ => .ok []
  join_counts_impl := fun _ _ _ => .ok []
  join_nearest_impl := fun _ _ => .ok []
  zonal := fun _ _ _ => .ok []

/-- A model reply whose first-`«{»`-to-last-`«}»` span is a valid JSON
object (the whole string). -/
def c2text : String := "\x7b\"action\": \"final\", \"answer\": \"ok\"\x7d"

/-- C2: the tolerant JSON extractor must return the object parsed from
the first-`«{»`-through-last-`«}»` span when it is valid JSON, else `None`.
The Geo_Cortex extractor does exactly that (third conjunct: it equals,
on every input and every parse function, the function written from the
words of the spec; second conjunct: on the failing input it hands the
span to `json.loads`).  The Backend variant used by the Backend agent
loop instead returns `None` on every input — its parse tail is dead code
displaced past the end of `run_workflow` — so on the failing input it
drops a perfectly valid tool call (first conjunct). -/
theorem c2_extractor_behaviour :
    (∀ loads : String → Option AVal, extractJsonObjectBE loads c2text = none) ∧
    (∀ loads : String → Option AVal, extractJsonObjectGC loads c2text = loads c2text) ∧
    (∀ {α : Type} (loads : String → Option α) (text : String),
      extractJsonObjectGC loads text = extractJsonObjectSpec loads text) := by
  refine ⟨fun loads => extractJsonObjectBE_eq_none loads c2text, fun loads => ?_, ?_⟩
  · have h : pySlice c2text (pyFindChar c2text '\x7b').toNat
        ((pyRfindChar c2text '\x7d').toNat + 1) = c2text := by decide
    simp only [extractJsonObjectGC]
    rw [if_neg (by decide), h]
  · intro α loads text
    simp only [extractJsonObjectGC, extractJsonObjectSpec]
    by_cases h : pyFindChar text '\x7b' = -1 ∨ pyRfindChar text '\x7d' = -1 ∨
        pyRfindChar text '\x7d' ≤ pyFindChar text '\x7b'
    · rw [if_pos h, if_neg (by omega)]
    · rw [if_neg h, if_pos (by omega)]

/-- The stored history of the appended-to session, in closed form. -/
theorem appendMessage_storeGet (st : ChatStore) (sid role c : String) (t : Int) (hc : c ≠ "") :
    storeGet (appendMessage st sid role c t) sid =
      (if (storeGet st sid ++ [ChatMsg.mk role c t]).length > 40 then
        (storeGet st sid ++ [ChatMsg.mk role c t]).drop ((storeGet st sid ++ [ChatMsg.mk role c t]).length - 40)
      else storeGet st sid ++ [ChatMsg.mk role c t]) := by
  simp only [appendMessage, if_neg hc]
  split
  · rw [storeGet_storePut, if_pos rfl]
  · rw [storeGet_storePut, if_pos rfl]

/-- Same closed form for the durable variant. -/
theorem appendMessageDb_storeGet (st : ChatStore) (sid role c : String) (t : Int) (hc : c ≠ "") :
    storeGet (appendMessageDb st sid role c t) sid =
      (if (storeGet st sid ++ [ChatMsg.mk role c t]).length > 40 then
        (storeGet st sid ++ [ChatMsg.mk role c t]).drop ((storeGet st sid ++ [ChatMsg.mk role c t]).length - 40)
      else storeGet st sid ++ [ChatMsg.mk role c t]) := by
  simp only [appendMessageDb, if_neg hc]
  split
  · rw [storeGet_storePut, if_pos rfl]
  · rw [storeGet_storePut, if_pos rfl]

/-- C9: `append_message` is a no-op on empty content; after any append
the stored history for the session holds at most 40 messages and is a
suffix of the previous history extended by the new message (the most
recent ones, in append order); other sessions are untouched; the other
chat-store operations preserve the bound and ordering (`get_history`
returns a suffix, `reset_session` empties exactly one session).  The
durable `append_message_db` behaves identically. -/
theorem c9_chat_store_bound :
    (∀ (st : ChatStore) (sid role : String) (t : Int),
      appendMessage st sid role "" t = st ∧ appendMessageDb st sid role "" t = st) ∧
    (∀ (st : ChatStore) (sid role c : String) (t : Int), c ≠ "" →
      (storeGet (appendMessage st sid role c t) sid).length ≤ 40 ∧
      storeGet (appendMessage st sid role c t) sid <:+ (storeGet st sid ++ [ChatMsg.mk role c t]) ∧
      ∀ sid2, ¬ sid = sid2 → storeGet (appendMessage st sid role c t) sid2 = storeGet st sid2) ∧
    (∀ (st : ChatStore) (sid role c : String) (t : Int), c ≠ "" →
      (storeGet (appendMessageDb st sid role c t) sid).length ≤ 40 ∧
      storeGet (appendMessageDb st sid role c t) sid <:+ (storeGet st sid ++ [ChatMsg.mk role c t])) ∧
    (∀ (st : ChatStore) (sid : String) (limit : Int),
      getHistory st sid limit <:+ storeGet st sid) ∧
    (∀ (st : ChatStore) (sid sid2 : String),
      storeGet (resetSession st sid) sid2 = if sid2 = sid then [] else storeGet st sid2) := by
  refine ⟨?_, ?_, ?_, ?_, fun st sid sid2 => storeGet_resetSession st sid sid2⟩
  · intro st sid role t
    constructor <;> simp [appendMessage, appendMessageDb]
  · intro st sid role c t hc
    refine ⟨?_, ?_, ?_⟩
    · rw [appendMessage_storeGet st sid role c t hc]
      split
      · rename_i h
        rw [List.length_drop]
        omega
      · rename_i h
        omega
    · rw [appendMessage_storeGet st sid role c t hc]
      split
      · exact List.drop_suffix _ _
      · exact List.suffix_refl _
    · intro sid2 hne
      simp only [appendMessage, if_neg hc]
      split <;> rw [storeGet_storePut] <;> simp [hne]
  · intro st sid role c t hc
    constructor
    · rw [appendMessageDb_storeGet st sid role c t hc]
      split
      · rw [List.length_drop]
        omega
      · rename_i h
        omega
    · rw [appendMessageDb_storeGet st sid role c t hc]
      split
      · exact List.drop_suffix _ _
      · exact List.suffix_refl _
  · intro st sid limit
    simp only [getHistory]
    split
    · exact List.nil_suffix
    · exact List.drop_suffix _ _

/-- Witness for C9 at a concrete store: appending to a session with one
message keeps the bound, the suffix shape, and session isolation. -/
theorem c9_chat_store_bound_witness :
    (storeGet (appendMessage [("s", [⟨"user", "hi", 0⟩])] "s" "assistant" "ok" 1) "s").length ≤ 40 ∧
    storeGet (appendMessage [("s", [⟨"user", "hi", 0⟩])] "s" "assistant" "ok" 1) "s" <:+
      (storeGet [("s", [⟨"user", "hi", 0⟩])] "s" ++ [ChatMsg.mk "assistant" "ok" 1]) ∧
    ∀ sid2, ¬ "s" = sid2 →
      storeGet (appendMessage [("s", [⟨"user", "hi", 0⟩])] "s" "assistant" "ok" 1) sid2 =
      storeGet [("s", [⟨"user", "hi", 0⟩])] sid2 :=
  c9_chat_store_bound.2.1 [("s", [⟨"user", "hi", 0⟩])] "s" "assistant" "ok" 1 (by decide)

/-- C10: with `DATA_GOV_STRICT` unset or false, `feature_enabled` returns
`True` for every feature name, so no governance refusal is reachable; a
`False` answer (the only source of a refusal) forces strict mode with the
feature's `<FEATURE>_ENABLE` flag not set to a truthy value. -/
theorem c10_governance_default_allow :
    (∀ env : Env, strictMode env = false → ∀ f, featureEnabledG env f = true) ∧
    (∀ (env : Env) (f : String), featureEnabledG env f = false →
      strictMode env = true ∧ envFlag env (pyUpper (pyLower f) ++ "_ENABLE") "0" = false) := by
  constructor
  · intro env h f
    simp [featureEnabledG, h]
  · intro env f h
    by_cases hs : strictMode env
    · refine ⟨hs, ?_⟩
      simpa [featureEnabledG, hs] using h
    · simp [featureEnabledG, hs] at h

/-- Witness for C10: the empty environment is non-strict and allows
`qc`; the strict environment with no `QC_ENABLE` disables `qc` and the
theorem pins both conditions. -/
theorem c10_governance_default_allow_witness :
    featureEnabledG env0 "qc" = true ∧
    (strictMode (fun n => if n = "DATA_GOV_STRICT" then some "1" else none) = true ∧
     envFlag (fun n => if n = "DATA_GOV_STRICT" then some "1" else none) "QC_ENABLE" "0" = false) :=
  ⟨c10_governance_default_allow.1 env0 (by decide) "qc",
   by
    have h := c10_governance_default_allow.2
      (fun n => if n = "DATA_GOV_STRICT" then some "1" else none) "qc" (by decide)
    simpa using h⟩

/-- A model reply proposing `commodity_stats` in the tool-call format. -/
def c1json : String := "\x7b\"action\": \"commodity_stats\", \"args\": \x7b\x7d\x7d"

/-- An LLM that proposes one tool call, then answers in plain prose. -/
def llmC1 : Nat → String := fun n => if n = 0 then c1json else "plain text answer"

/-- The parse of that reply. -/
def loadsC1 : String → Option ActionObj := fun s =>
  if s = c1json then some ⟨true, some "commodity_stats", [], ""⟩ else none

/-- Counterexample to C1 as stated: with `max_steps = 1`, a single
successful `commodity_stats` call (which populates no artifact) makes the
Geo_Cortex `run_agent` perform a second `generate_response` round-trip
for the post-loop grounded summary — 2 LLM round-trips, exceeding
`max_steps`. -/
theorem c1_roundtrip_counterexample :
    (runAgentGC env0 llmC1 loadsC1 toolsGC0 "hello there" 1).toOption.map
      (fun r => (r.llmCalls, r.trace.map (·.tool))) = some (2, ["commodity_stats"]) := by
  rfl

/-- A model reply proposing `search_mods` in the tool-call format. -/
def c3json : String := "\x7b\"action\": \"search_mods\", \"args\": \x7b\x7d\x7d"

/-- An LLM that proposes `search_mods` on its first call. -/
def llmC3 : Nat → String := fun n => if n = 0 then c3json else "unused"

/-- The parse of that reply. -/
def loadsC3 : String → Option ActionObj := fun s =>
  if s = c3json then some ⟨true, some "search_mods", [], ""⟩ else none

/-- C3, evaluated at the failing input on the Backend variant: a
well-formed LLM tool proposal produces no trace entry, no artifact and no
dispatch at all — the broken extractor yields `None`, so the loop returns
the raw LLM text after one round-trip (first conjunct); and even when the
dispatch code is entered directly, a successful `search_mods` produces
the mis-indented unconditional return (`.ret`) instead of looping back to
another PROMPTING iteration (second conjunct). -/
theorem c3_backend_never_loops :
    ((runAgentBE env0 llmC3 loadsC3 toolsBE0 (fun _ => true) id rag0 [] none []
        "find gold deposits data" 3).toOption.map
      (fun r => (r.answer, r.trace.map (·.tool), r.artifacts.map (·.1), r.llmCalls)) =
      some (c3json, [], [], 1)) ∧
    (dispatchBE (fun _ => true) toolsBE0 rag0 id "q" "modeltext"
        ⟨0, [], none, [], [], "", "", ""⟩ (some "search_mods") [] =
      .ret ⟨"modeltext", [okT "search_mods" [] 0], some [], [], 0⟩) := by
  constructor
  · rfl
  · rfl

/-- An LLM producing only prose (used where its content is irrelevant). -/
def llmC4 : Nat → String := fun _ => "grounded summary text"

/-- Counterexample to C4 as stated: the Saudi-wide points utterance is
deterministically routed (trace holds only the `bbox_mods` entry, zero
PROMPTING iterations), yet `generate_response` IS invoked once, by
`_grounded_nl_summary`, to phrase the answer. -/
theorem c4_counterexample :
    (runAgentGC env0 llmC4 loads0 toolsGC0 "show all points in saudi arabia" 3).toOption.map
      (fun r => (r.llmCalls, r.trace.map (·.tool))) = some (1, ["bbox_mods"]) := by
  rfl

/-- First `stats_by_type` proposal. -/
def c5json1 : String := "\x7b\"action\": \"stats_by_type\", \"args\": \x7b\"limit\": 5\x7d\x7d"

/-- Second `stats_by_type` proposal with different arguments. -/
def c5json2 : String := "\x7b\"action\": \"stats_by_type\", \"args\": \x7b\"limit\": 7\x7d\x7d"

/-- An LLM that proposes `stats_by_type` twice with different arguments. -/
def llmC5 : Nat → String := fun n =>
  if n = 0 then c5json1 else if n = 1 then c5json2 else "done"

/-- The parses of those replies. -/
def loadsC5 : String → Option ActionObj := fun s =>
  if s = c5json1 then some ⟨true, some "stats_by_type", [("limit", .ascal (.snum 5))], ""⟩
  else if s = c5json2 then some ⟨true, some "stats_by_type", [("limit", .ascal (.snum 7))], ""⟩
  else none

/-- A `stats_by_type` executor returning different payloads for the two
limits. -/
def statsByTypeC5 (a : Args) : Except String (List Row) :=
  if aget a "limit" = some (.ascal (.snum 5)) then
    .ok [[("occurrence_type", .sstr "Metallic")]]
  else
    .ok [[("occurrence_type", .sstr "Metallic")], [("occurrence_type", .sstr "Non Metallic")]]

/-- Tools with that `stats_by_type` executor. -/
def toolsC5 : ToolsGC := { toolsGC0 with stats_by_type := statsByTypeC5 }

/-- Counterexample to C5 as stated: `stats_by_type` is not in the
redundancy-guard list of the Geo_Cortex loop, so a second call with
different arguments is executed (two successful trace entries), the
`stats_by_type` artifact key is populated twice — the final payload is
the second call's (2 rows, overwriting the first call's 1 row) — and the
loop is not terminated by the second call (a third LLM round-trip runs). -/
theorem c5_counterexample :
    (runAgentGC env0 llmC5 loadsC5 toolsC5 "hello there" 3).toOption.map (fun r =>
      (r.trace.map (fun e => (e.tool, e.error.isSome)),
       (payRows (artGet r.artifacts "stats_by_type")).map List.length,
       r.llmCalls)) =
    some ([("stats_by_type", false), ("stats_by_type", false)], some 2, 3) := by
  rfl

/-- A data store whose bbox query raises. -/
def toolsC6fast : ToolsGC :=
  { toolsGC0 with bbox_mods := fun _ => .error "invalid geometry from data store" }

/-- Counterexample to C6 as stated: a tool exception on the deterministic
fast path (the Saudi-wide `bbox_mods` route runs the executor outside any
`try`) propagates out of the Geo_Cortex `run_agent` to the caller. -/
theorem c6_counterexample :
    runAgentGC env0 llmC4 loads0 toolsC6fast "show all points in saudi arabia" 3 =
      .error "invalid geometry from data store" := by
  rfl

/-- Destructing a successful `Except` bind. -/
theorem ok_of_bind {α β : Type} (ma : Except String α) (f : α → Except String β) (b : β)
    (h : Except.bind ma f = .ok b) : ∃ a, ma = .ok a ∧ f a = .ok b := by
  cases ma with
  | error e => cases h
  | ok a => exact ⟨a, rfl, h⟩

/-- The LLM-call count carried by a loop-iteration outcome. -/
def kOfOut : StepOut GCSt → Nat
  | .cont s => s.k
  | .brk s => s.k
  | .ret r => r.llmCalls


/-- The Geo_Cortex dispatch never performs an LLM call: the call counter
of its outcome equals the counter of the state it was handed. -/
theorem dispatchGC_kOf (tools : ToolsGC) (query modelOut : String) (st : GCSt)
    (act : Option String) (args : Args) :
    kOfOut (dispatchGC tools query modelOut st act args) = st.k := by
  simp only [dispatchGC]
  by_cases h0 : act = some "search_mods"
  · rw [if_pos h0]
    repeat' split
    all_goals simp [kOfOut, contOkGC, contErrGC]
  rw [if_neg h0]
  by_cases h1 : act = some "nearby_mods"
  · rw [if_pos h1]
    repeat' split
    all_goals simp [kOfOut, contOkGC, contErrGC]
  rw [if_neg h1]
  by_cases h2 : act = some "commodity_stats"
  · rw [if_pos h2]
    repeat' split
    all_goals simp [kOfOut, contOkGC, contErrGC]
  rw [if_neg h2]
  by_cases h3 : act = some "bbox_mods"
  · rw [if_pos h3]
    repeat' split
    all_goals simp [kOfOut, contOkGC, contErrGC]
  rw [if_neg h3]
  by_cases h4 : act = some "nearest_mods"
  · rw [if_pos h4]
    repeat' split
    all_goals simp [kOfOut, contOkGC, contErrGC]
  rw [if_neg h4]
  by_cases h5 : act = some "geojson_export"
  · rw [if_pos h5]
    repeat' split
    all_goals simp [kOfOut, contOkGC, contErrGC]
  rw [if_neg h5]
  by_cases h6 : act = some "csv_export"
  · rw [if_pos h6]
    repeat' split
    all_goals simp [kOfOut, contOkGC, contErrGC]
  rw [if_neg h6]
  by_cases h7 : act = some "stats_by_region"
  · rw [if_pos h7]
    repeat' split
    all_goals simp [kOfOut, contOkGC, contErrGC]
  rw [if_neg h7]
  by_cases h8 : act = some "stats_by_type"
  · rw [if_pos h8]
    repeat' split
    all_goals simp [kOfOut, contOkGC, contErrGC]
  rw [if_neg h8]
  by_cases h9 : act = some "stats_region_by_type"
  · rw [if_pos h9]
    repeat' split
    all_goals simp [kOfOut, contOkGC, contErrGC]
  rw [if_neg h9]
  by_cases h10 : act = some "importance_breakdown"
  · rw [if_pos h10]
    repeat' split
    all_goals simp [kOfOut, contOkGC, contErrGC]
  rw [if_neg h10]
  by_cases h11 : act = some "heatmap_bins"
  · rw [if_pos h11]
    repeat' split
    all_goals simp [kOfOut, contOkGC, contErrGC]
  rw [if_neg h11]
  by_cases h12 : act = some "rag"
  · rw [if_pos h12]
    repeat' split
    all_goals simp [kOfOut, contOkGC, contErrGC]
  rw [if_neg h12]
  simp [kOfOut]

/-- Call-count contract of one Geo_Cortex loop iteration, relative to the
entry state. -/
def stepOk (st : GCSt) : StepOut GCSt → Prop
  | .cont s => s.k = st.k + 1
  | .brk s => s.k = st.k + 1
  | .ret r => r.llmCalls ≤ st.k + 2

/-- A dispatch outcome satisfies the iteration contract whenever the
dispatched state has already absorbed the single prompt of the
iteration. -/
theorem stepOk_dispatch (st : GCSt) (tools : ToolsGC) (query modelOut : String)
    (st1 : GCSt) (act : Option String) (args : Args) (hk : st1.k = st.k + 1) :
    stepOk st (dispatchGC tools query modelOut st1 act args) := by
  have h := dispatchGC_kOf tools query modelOut st1 act args
  cases ho : dispatchGC tools query modelOut st1 act args <;>
    rw [ho] at h <;> simp [stepOk, kOfOut] at h ⊢ <;> omega

/-- One Geo_Cortex loop iteration advances the LLM call counter by
exactly one on `cont`/`brk`, and a returning iteration has performed at
most two calls beyond the entry count. -/
theorem stepGC_kOf (llm : Nat → String) (loads : String → Option ActionObj)
    (tools : ToolsGC) (dt : Bool) (query : String) (st : GCSt) :
    stepOk st (stepGC llm loads tools dt query st) := by
  simp only [stepGC, groundedNlSummary]
  repeat' split
  all_goals try (simp [stepOk]; done)
  all_goals exact stepOk_dispatch _ _ _ _ _ _ _ (by simp)

/-- The Geo_Cortex post-loop synthesis performs at most one further LLM
call. -/
theorem finishGC_k (llm : Nat → String) (query : String) (st : GCSt) :
    (finishGC llm query st).llmCalls ≤ st.k + 1 := by
  simp only [finishGC]
  split
  · exact Nat.le_succ _
  · split
    · exact Nat.le_refl _
    · exact Nat.le_succ _

/-- The Geo_Cortex loop performs at most `fuel` LLM calls beyond the
entry count, plus the single post-loop summary call. -/
theorem loopGC_k (llm : Nat → String) (loads : String → Option ActionObj)
    (tools : ToolsGC) (dt : Bool) (query : String) :
    ∀ (fuel : Nat) (st : GCSt),
      (loopGC llm loads tools dt query fuel st).llmCalls ≤ st.k + fuel + 1 := by
  intro fuel
  induction fuel with
  | zero =>
    intro st
    have hf := finishGC_k llm query st
    simp only [loopGC]
    omega
  | succ fuel ih =>
    intro st
    have hs := stepGC_kOf llm loads tools dt query st
    simp only [loopGC]
    cases h : stepGC llm loads tools dt query st with
    | cont st2 =>
      rw [h] at hs
      simp only [stepOk] at hs
      have h2 := ih st2
      show (loopGC llm loads tools dt query fuel st2).llmCalls ≤ st.k + (fuel + 1) + 1
      omega
    | brk st2 =>
      rw [h] at hs
      simp only [stepOk] at hs
      have h2 := finishGC_k llm query st2
      show (finishGC llm query st2).llmCalls ≤ st.k + (fuel + 1) + 1
      omega
    | ret r =>
      rw [h] at hs
      simp only [stepOk] at hs
      show r.llmCalls ≤ st.k + (fuel + 1) + 1
      omega

/-- Deterministic route 1 returns with zero LLM calls and exactly its own
trace entry. -/
theorem gcRunRegionByType_spec (tools : ToolsGC) (ql : String) (r : AgentResult)
    (h : gcRunRegionByType tools ql = .ok r) :
    r.llmCalls = 0 ∧ r.trace.map (fun t => t.tool) = ["stats_region_by_type"] := by
  simp only [gcRunRegionByType] at h
  obtain ⟨rows, _, h⟩ := ok_of_bind _ _ _ h
  cases h
  exact ⟨rfl, by simp [okT]⟩

/-- Deterministic route 2 returns with zero LLM calls and exactly its own
trace entry. -/
theorem gcRunByType_spec (tools : ToolsGC) (ql : String) (r : AgentResult)
    (h : gcRunByType tools ql = .ok r) :
    r.llmCalls = 0 ∧ r.trace.map (fun t => t.tool) = ["stats_by_type"] := by
  simp only [gcRunByType] at h
  obtain ⟨rows, _, h⟩ := ok_of_bind _ _ _ h
  cases h
  exact ⟨rfl, by simp [okT]⟩

/-- Deterministic route 3 returns with exactly one LLM call (the grounded
summary) and exactly its own trace entry. -/
theorem gcRunSaudiPoints_spec (env : Env) (llm : Nat → String) (tools : ToolsGC)
    (query ql : String) (r : AgentResult)
    (h : gcRunSaudiPoints env llm tools query ql = .ok r) :
    r.llmCalls = 1 ∧ r.trace.map (fun t => t.tool) = ["bbox_mods"] := by
  simp only [gcRunSaudiPoints] at h
  obtain ⟨limit, _, h⟩ := ok_of_bind _ _ _ h
  obtain ⟨rows, _, h⟩ := ok_of_bind _ _ _ h
  cases h
  exact ⟨by simp [groundedNlSummary], by simp [okT]⟩

/-- Deterministic route 4 returns with exactly one LLM call (the grounded
summary) and exactly its own trace entry. -/
theorem gcRunRegionPoints_spec (env : Env) (llm : Nat → String) (tools : ToolsGC)
    (query ql : String) (r : AgentResult)
    (h : gcRunRegionPoints env llm tools query ql = .ok r) :
    r.llmCalls = 1 ∧ r.trace.map (fun t => t.tool) = ["search_mods"] := by
  simp only [gcRunRegionPoints] at h
  obtain ⟨limit, _, h⟩ := ok_of_bind _ _ _ h
  obtain ⟨rows, _, h⟩ := ok_of_bind _ _ _ h
  cases h
  exact ⟨by simp [groundedNlSummary], by simp [okT]⟩

/-- A deterministic Geo_Cortex route that returns performs at most one
LLM call (the grounded-summary call of the two points routes). -/
theorem fastPathGC_budget (env : Env) (llm : Nat → String) (tools : ToolsGC)
    (query : String) (e : Except String AgentResult) (r : AgentResult)
    (hf : fastPathGC env llm tools query = some e) (h : e = .ok r) :
    r.llmCalls ≤ 1 := by
  subst h
  simp only [fastPathGC] at hf
  repeat' split at hf
  all_goals first
    | cases hf
    | injection hf with hf
  · have := (gcRunRegionByType_spec _ _ _ hf).1
    omega
  · have := (gcRunByType_spec _ _ _ hf).1
    omega
  · have := (gcRunSaudiPoints_spec _ _ _ _ _ _ hf).1
    omega
  · have := (gcRunRegionPoints_spec _ _ _ _ _ _ hf).1
    omega

/-- `run_agent` (Geo_Cortex) performs at most `max_steps + 1` LLM calls
whenever it returns. -/
theorem runAgentGC_budget (env : Env) (llm : Nat → String)
    (loads : String → Option ActionObj) (tools : ToolsGC) (query : String)
    (maxSteps : Nat) (r : AgentResult)
    (h : runAgentGC env llm loads tools query maxSteps = .ok r) :
    r.llmCalls ≤ maxSteps + 1 := by
  simp only [runAgentGC] at h
  cases hf : fastPathGC env llm tools query with
  | some e =>
    rw [hf] at h
    have h2 : e = .ok r := h
    have := fastPathGC_budget env llm tools query e r hf h2
    omega
  | none =>
    rw [hf] at h
    cases h
    exact le_trans (loopGC_k _ _ _ _ _ maxSteps _) (by simp)

/-- The Backend post-loop synthesis performs at most one further LLM
call. -/
theorem finishBE_k (llm : Nat → String) (loads : String → Option ActionObj)
    (sanitize : String → String) (query : String) (st : BESt) :
    (finishBE llm loads sanitize query st).llmCalls ≤ st.k + 1 := by
  simp only [finishBE]
  split
  · exact Nat.le_succ _
  · split
    · split
      · exact Nat.le_refl _
      · exact Nat.le_refl _
    · exact Nat.le_refl _

/-- The Backend loop performs at most `fuel` LLM calls beyond the entry
count, plus the single post-loop call. -/
theorem loopBE_k (llm : Nat → String) (loads : String → Option ActionObj)
    (fe : String → Bool) (tools : ToolsBE) (ragRetrieve : String → String × List Row)
    (sanitize : String → String) (dt : Bool) (query : String) (fuel : Nat) (st : BESt)
    (r : AgentResult)
    (h : loopBE llm loads fe tools ragRetrieve sanitize dt query fuel st = .ok r) :
    r.llmCalls ≤ st.k + fuel + 1 := by
  cases fuel with
  | zero =>
    simp only [loopBE] at h
    cases h
    have := finishBE_k llm loads sanitize query st
    omega
  | succ fuel =>
    simp only [loopBE, stepBE_spec] at h
    by_cases ht : st.trace ≠ []
    · rw [if_pos ht] at h
      cases h
      have := finishBE_k llm loads sanitize query
        { st with k := st.k + 1, lastOut := llm st.k }
      simp at this
      omega
    · rw [if_neg ht] at h
      cases h
      show st.k + 1 ≤ st.k + (fuel + 1) + 1
      omega

/-- The non-mines Backend body performs at most `max_steps + 1` LLM calls
whenever it returns. -/
theorem runAgentBEMain_budget (env : Env) (llm : Nat → String)
    (loads : String → Option ActionObj) (tools : ToolsBE) (fe : String → Bool)
    (sanitize : String → String) (ragRetrieve : String → String × List Row)
    (uploaded : Option AVal) (chatHistory : List ChatMsg) (query : String)
    (maxSteps : Nat) (r : AgentResult)
    (h : runAgentBEMain env llm loads tools fe sanitize ragRetrieve uploaded
        chatHistory query maxSteps = .ok r) :
    r.llmCalls ≤ maxSteps + 1 := by
  simp only [runAgentBEMain] at h
  split at h
  · obtain ⟨rows, _, h2⟩ := ok_of_bind _ _ _ h
    cases h2
    exact Nat.zero_le _
  · split at h
    · obtain ⟨geom, _, h2⟩ := ok_of_bind _ _ _ h
      cases h2
      exact Nat.zero_le _
    · have := loopBE_k _ _ _ _ _ _ _ _ _ _ _ h
      simp at this
      omega

/-- The Backend `run_agent` performs at most `max_steps + 1` LLM calls
whenever it returns. -/
theorem runAgentBE_budget (env : Env) (llm : Nat → String)
    (loads : String → Option ActionObj) (tools : ToolsBE) (fe : String → Bool)
    (sanitize : String → String) (ragRetrieve : String → String × List Row)
    (dbRegions : List String) (uploaded : Option AVal) (chatHistory : List ChatMsg)
    (query : String) (maxSteps : Nat) (r : AgentResult)
    (h : runAgentBE env llm loads tools fe sanitize ragRetrieve dbRegions uploaded
        chatHistory query maxSteps = .ok r) :
    r.llmCalls ≤ maxSteps + 1 := by
  simp only [runAgentBE] at h
  cases hm : minesFastBE dbRegions query with
  | some cr =>
    rw [hm] at h
    have h2 : minesRunBE tools sanitize cr = .ok r := h
    simp only [minesRunBE] at h2
    obtain ⟨feats, _, h3⟩ := ok_of_bind _ _ _ h2
    cases h3
    exact Nat.zero_le _
  | none =>
    rw [hm] at h
    exact runAgentBEMain_budget _ _ _ _ _ _ _ _ _ _ _ _ h

/-- C1: corrected.  Both `run_agent` variants always terminate with a
well-formed result (`AgentResult`, the 4-tuple plus call count) for every
LLM behavior, but the bound claimed by the spec is off by one: whenever an
invocation returns (rather than raising), it performs at most
`max_steps + 1` LLM round-trips — the post-loop grounded-summary /
forced-final call can exceed `max_steps` (see the counterexample, where
`max_steps = 1` yields 2 calls). -/
theorem c1_llm_budget_amended :
    (∀ (env : Env) (llm : Nat → String) (loads : String → Option ActionObj)
        (tools : ToolsGC) (query : String) (maxSteps : Nat) (r : AgentResult),
        runAgentGC env llm loads tools query maxSteps = .ok r →
        r.llmCalls ≤ maxSteps + 1) ∧
    (∀ (env : Env) (llm : Nat → String) (loads : String → Option ActionObj)
        (tools : ToolsBE) (fe : String → Bool) (sanitize : String → String)
        (ragRetrieve : String → String × List Row) (dbRegions : List String)
        (uploaded : Option AVal) (chatHistory : List ChatMsg)
        (query : String) (maxSteps : Nat) (r : AgentResult),
        runAgentBE env llm loads tools fe sanitize ragRetrieve dbRegions uploaded
          chatHistory query maxSteps = .ok r →
        r.llmCalls ≤ maxSteps + 1) :=
  ⟨fun env llm loads tools query maxSteps r h =>
      runAgentGC_budget env llm loads tools query maxSteps r h,
   fun env llm loads tools fe sanitize ragRetrieve dbRegions uploaded chatHistory
        query maxSteps r h =>
      runAgentBE_budget env llm loads tools fe sanitize ragRetrieve dbRegions
        uploaded chatHistory query maxSteps r h⟩

/-- C1 witness: the amended bound applied at a concrete run (one
malformed LLM reply, `max_steps = 1`, one LLM call performed). -/
theorem c1_llm_budget_amended_witness :
    (AgentResult.mk "hi" [] none [] 1).llmCalls ≤ 1 + 1 :=
  c1_llm_budget_amended.1 env0 (fun _ => "hi") loads0 toolsGC0 "hello there" 1
    (AgentResult.mk "hi" [] none [] 1) (by rfl)

/-- A Backend mines fast-path run returns zero LLM calls and only the
auto tool trace entry. -/
theorem minesRunBE_spec (tools : ToolsBE) (sanitize : String → String)
    (cr : String × String) (r : AgentResult)
    (h : minesRunBE tools sanitize cr = .ok r) :
    r.llmCalls = 0 ∧ r.trace.map (fun t => t.tool) = ["auto_geojson_export"] := by
  simp only [minesRunBE] at h
  obtain ⟨feats, _, h2⟩ := ok_of_bind _ _ _ h
  cases h2
  exact ⟨rfl, by simp [okT]⟩

/-- C4: corrected.  The deterministic Router does bypass the PROMPTING
loop — a matched rule runs exactly its routed tool, whose entry is the
whole trace, and `run_agent` returns the route result unchanged — and the
two stats routes and the Backend mines fast path never invoke the LLM;
but the two points routes (Saudi-wide and region-hint) DO invoke
`generate_response` exactly once, through `_grounded_nl_summary`, so
"the LLM collaborator is never invoked" does not hold for them (see the
counterexample). -/
theorem c4_routing_amended :
    (∀ (env : Env) (llm : Nat → String) (loads : String → Option ActionObj)
        (tools : ToolsGC) (query : String) (maxSteps : Nat)
        (e : Except String AgentResult),
        fastPathGC env llm tools query = some e →
        runAgentGC env llm loads tools query maxSteps = e) ∧
    (∀ (tools : ToolsGC) (ql : String) (r : AgentResult),
        gcRunRegionByType tools ql = .ok r →
        r.llmCalls = 0 ∧ r.trace.map (fun t => t.tool) = ["stats_region_by_type"]) ∧
    (∀ (tools : ToolsGC) (ql : String) (r : AgentResult),
        gcRunByType tools ql = .ok r →
        r.llmCalls = 0 ∧ r.trace.map (fun t => t.tool) = ["stats_by_type"]) ∧
    (∀ (env : Env) (llm : Nat → String) (tools : ToolsGC) (query ql : String)
        (r : AgentResult),
        gcRunSaudiPoints env llm tools query ql = .ok r →
        r.llmCalls = 1 ∧ r.trace.map (fun t => t.tool) = ["bbox_mods"]) ∧
    (∀ (env : Env) (llm : Nat → String) (tools : ToolsGC) (query ql : String)
        (r : AgentResult),
        gcRunRegionPoints env llm tools query ql = .ok r →
        r.llmCalls = 1 ∧ r.trace.map (fun t => t.tool) = ["search_mods"]) ∧
    (∀ (env : Env) (llm : Nat → String) (loads : String → Option ActionObj)
        (tools : ToolsBE) (fe : String → Bool) (sanitize : String → String)
        (ragRetrieve : String → String × List Row) (dbRegions : List String)
        (uploaded : Option AVal) (chatHistory : List ChatMsg) (query : String)
        (maxSteps : Nat) (cr : String × String) (r : AgentResult),
        minesFastBE dbRegions query = some cr →
        runAgentBE env llm loads tools fe sanitize ragRetrieve dbRegions uploaded
          chatHistory query maxSteps = .ok r →
        r.llmCalls = 0 ∧ r.trace.map (fun t => t.tool) = ["auto_geojson_export"]) := by
  refine ⟨?_, gcRunRegionByType_spec, gcRunByType_spec, gcRunSaudiPoints_spec,
    gcRunRegionPoints_spec, ?_⟩
  · intro env llm loads tools query maxSteps e hf
    simp only [runAgentGC, hf]
  · intro env llm loads tools fe sanitize ragRetrieve dbRegions uploaded
      chatHistory query maxSteps cr r hm h
    simp only [runAgentBE, hm] at h
    exact minesRunBE_spec tools sanitize cr r h

/-- C4 witness: the occurrence-type route applied at a concrete input —
zero LLM calls, a single `stats_by_type` trace entry. -/
theorem c4_routing_amended_witness :
    (AgentResult.mk ("Top occurrence types:\n" ++ "(no rows)")
        [okT "stats_by_type" (gcArgsByType "x") 0] none
        (artSet [] "stats_by_type" (.rows [])) 0).llmCalls = 0 ∧
    (AgentResult.mk ("Top occurrence types:\n" ++ "(no rows)")
        [okT "stats_by_type" (gcArgsByType "x") 0] none
        (artSet [] "stats_by_type" (.rows [])) 0).trace.map (fun t => t.tool) =
      ["stats_by_type"] :=
  c4_routing_amended.2.2.1 toolsGC0 "x" _ (by rfl)

/-- C5: corrected.  The redundancy guard does hold for the six guarded
(artifact-key, action) pairs of `gcAlready`, and exact repetition of a
`(tool, canonical-args)` signature does stop the loop without
re-execution: in both cases the iteration breaks to answer synthesis with
artifacts and occurrences unchanged.  But the guard is NOT "each artifact
key at most once": actions outside the guard list (e.g. `stats_by_type`,
`stats_region_by_type`) re-execute and overwrite their artifact key when
proposed again with different arguments, and the loop continues (see the
counterexample). -/
theorem c5_artifact_guard_amended :
    ∀ (llm : Nat → String) (loads : String → Option ActionObj) (tools : ToolsGC)
      (dt : Bool) (query : String) (st : GCSt) (obj : ActionObj),
      extractJsonObjectGC loads (llm st.k) = some obj →
      obj.hasAction = true →
      obj.action ≠ some "final" →
      ((gcAlready obj.action st.artifacts = true →
        ∃ st2, stepGC llm loads tools dt query st = .brk st2 ∧
          st2.artifacts = st.artifacts ∧ st2.occs = st.occs) ∧
       (gcAlready obj.action st.artifacts = false →
        st.seen.contains (callKey (actText obj.action) obj.args) = true →
        ∃ st2, stepGC llm loads tools dt query st = .brk st2 ∧
          st2.artifacts = st.artifacts ∧ st2.occs = st.occs)) := by
  intro llm loads tools dt query st obj hx ha hf
  constructor
  · intro hal
    cases dt <;> simp [stepGC, hx, ha, hf, hal]
  · intro hal hseen
    have hseen2 : callKey (actText obj.action) obj.args ∈ st.seen := by
      simpa using hseen
    cases dt <;> simp [stepGC, hx, ha, hf, hal, hseen2]

/-- An LLM that always proposes `heatmap_bins` (used by the C5 witness). -/
def llmH : Nat → String := fun _ => "\x7b\"action\": \"heatmap_bins\", \"args\": \x7b\x7d\x7d"

/-- The parse of that proposal. -/
def loadsH : String → Option ActionObj := fun s =>
  if s = llmH 0 then some ⟨true, some "heatmap_bins", [], ""⟩ else none

/-- A loop state whose `heatmap_bins` artifact key is already populated. -/
def stH : GCSt :=
  ⟨1, [okT "heatmap_bins" [] 0], none, artSet [] "heatmap_bins" (.rows []), [], "", ""⟩

/-- C5 witness: with `heatmap_bins` already populated, a second
`heatmap_bins` proposal breaks the loop with artifacts and occurrences
unchanged. -/
theorem c5_artifact_guard_amended_witness :
    ∃ st2, stepGC llmH loadsH toolsGC0 false "q" stH = .brk st2 ∧
      st2.artifacts = stH.artifacts ∧ st2.occs = stH.occs :=
  (c5_artifact_guard_amended llmH loadsH toolsGC0 false "q" stH
      (ActionObj.mk true (some "heatmap_bins") [] "")
      (by rfl) (by rfl) (by decide)).1 (by rfl)

/-- The Geo_Cortex tool registry: the action names the loop dispatches. -/
def gcRegistry : List String :=
  ["search_mods", "nearby_mods", "commodity_stats", "bbox_mods", "nearest_mods",
   "geojson_export", "csv_export", "stats_by_region", "stats_by_type",
   "stats_region_by_type", "importance_breakdown", "heatmap_bins", "rag"]

/-- Tool executors that all raise the same exception. -/
def toolsErrGC (e : String) : ToolsGC where
  search_mods := fun _ => .error e
  nearby_mods := fun _ => .error e
  commodity_stats := fun _ => .error e
  bbox_mods := fun _ => .error e
  nearest_mods := fun _ => .error e
  geojson_export := fun _ => .error e
  csv_export := fun _ => .error e
  stats_by_region := fun _ => .error e
  stats_by_type := fun _ => .error e
  stats_region_by_type := fun _ => .error e
  importance_breakdown := fun _ => .error e
  heatmap_bins := fun _ => .error e
  handle_query := fun _ => .error e

/-- C6: corrected.  Inside the Geo_Cortex LLM loop the claim holds: when
no deterministic route matches, `run_agent` always returns (first
conjunct — the loop and its post-loop synthesis are total, whatever the
tools do), and a registry tool whose executor raises yields exactly a
continued iteration carrying the `{tool, args, error}` trace record
(second conjunct).  But the claim is false for the deterministic fast
paths, which call executors outside any `try`: there an exception
propagates to the caller (see the counterexample). -/
theorem c6_tool_exceptions_amended :
    (∀ (env : Env) (llm : Nat → String) (loads : String → Option ActionObj)
        (tools : ToolsGC) (query : String) (maxSteps : Nat),
        fastPathGC env llm tools query = none →
        ∃ r, runAgentGC env llm loads tools query maxSteps = .ok r) ∧
    (∀ (e : String) (llm : Nat → String) (loads : String → Option ActionObj)
        (dt : Bool) (query : String) (st : GCSt) (obj : ActionObj) (name : String),
        extractJsonObjectGC loads (llm st.k) = some obj →
        obj.hasAction = true →
        obj.action = some name →
        name ∈ gcRegistry →
        gcAlready obj.action st.artifacts = false →
        st.seen.contains (callKey name obj.args) = false →
        stepGC llm loads (toolsErrGC e) dt query st =
          .cont (contErrGC { st with
              k := st.k + 1
              lastOut := llm st.k
              seen := st.seen ++ [callKey name obj.args] } name obj.args e)) := by
  constructor
  · intro env llm loads tools query maxSteps hf
    simp only [runAgentGC, hf]
    exact ⟨_, rfl⟩
  · intro e llm loads dt query st obj name hx ha hact hmem hal hseen
    have hseen2 : callKey name obj.args ∉ st.seen := by simpa using hseen
    fin_cases hmem <;>
      · rw [hact] at hal
        simp [stepGC, dispatchGC, toolsErrGC, actText, hx, ha, hact, hal, hseen2]

/-- C6 witness: a `heatmap_bins` proposal whose executor raises "boom"
continues the loop with the error trace entry. -/
theorem c6_tool_exceptions_amended_witness :
    stepGC llmH loadsH (toolsErrGC "boom") false "q" (GCSt.mk 0 [] none [] [] "" "") =
      .cont (contErrGC (GCSt.mk 1 [] none [] [callKey "heatmap_bins" []] "" (llmH 0))
        "heatmap_bins" [] "boom") :=
  c6_tool_exceptions_amended.2 "boom" llmH loadsH false "q"
    (GCSt.mk 0 [] none [] [] "" "") (ActionObj.mk true (some "heatmap_bins") [] "")
    "heatmap_bins" (by rfl) (by rfl) (by rfl) (by decide) (by rfl) (by rfl)

/-- The artifact keys the QC tool family populates. -/
def qcKeys : List String :=
  ["qc_summary", "qc_duplicates_mods_id", "qc_duplicates_coords", "qc_outliers"]

/-- No QC artifact key is populated. -/
def qcClean (a : Artifacts) : Prop := ∀ k ∈ qcKeys, artGet a k = none

/-- Writing a non-QC key preserves QC-cleanliness. -/
theorem qcClean_artSet (a : Artifacts) (k : String) (v : PayV) (hk : k ∉ qcKeys)
    (h : qcClean a) : qcClean (artSet a k v) := by
  intro k2 hk2
  rw [artGet_artSet]
  split
  · next heq => exact absurd (heq ▸ hk2) hk
  · exact h k2 hk2

/-- QC-cleanliness of a `wfOk` state reduces to its artifact update. -/
theorem qcClean_wfOk (st : WfSt) (entry : TraceEntry) (artUpd : Artifacts → Artifacts)
    (occs : Option (List Row)) (h : qcClean (artUpd st.artifacts)) :
    qcClean ((wfOk st entry artUpd occs).artifacts) := h

/-- With QC disabled, the workflow gate refuses every `qc_*` action. -/
theorem execGateWF_qc (fe : String → Bool) (action : String) (args : Args) (r : Args)
    (hq : pyStartsWith action "qc_" = true) (hfe : fe "qc" = false)
    (h : execGateWF fe action args = .ok r) : False := by
  simp only [execGateWF] at h
  obtain ⟨a2, _, h⟩ := ok_of_bind _ _ _ h
  simp only [gateCheckWF] at h
  rw [hq, hfe] at h
  rw [if_pos (by decide : true = true ∧ ¬ (false = true))] at h
  cases h

/-- The workflow dispatch never writes a QC artifact key for a non-`qc_*`
action. -/
theorem execDispatchWF_qcClean (tools : ToolsBE) (gis : GisW) (uploaded : Option AVal)
    (uploadedFc : Option FC) (action : String) (args : Args) (st st2 : WfSt)
    (hqc : pyStartsWith action "qc_" = false)
    (h : execDispatchWF tools gis uploaded uploadedFc action args st = .ok st2)
    (hc : qcClean st.artifacts) : qcClean st2.artifacts := by
  simp only [execDispatchWF] at h
  by_cases h0 : action = "qc_summary"
  · rw [h0] at hqc
    exact absurd hqc (by decide)
  rw [if_neg h0] at h
  by_cases h1 : action = "qc_duplicates_mods_id"
  · rw [h1] at hqc
    exact absurd hqc (by decide)
  rw [if_neg h1] at h
  by_cases h2 : action = "qc_duplicates_coords"
  · rw [h2] at hqc
    exact absurd hqc (by decide)
  rw [if_neg h2] at h
  by_cases h3 : action = "qc_outliers"
  · rw [h3] at hqc
    exact absurd hqc (by decide)
  rw [if_neg h3] at h
  by_cases h4 : action = "spatial_query"
  · rw [if_pos h4] at h
    repeat' split at h
    all_goals first
      | (cases h <;> first | exact qcClean_wfOk _ _ _ _ hc | exact qcClean_wfOk _ _ _ _ (qcClean_artSet _ _ _ (by decide) hc) | exact qcClean_wfOk _ _ _ _ (qcClean_artSet _ _ _ (by decide) (qcClean_artSet _ _ _ (by decide) hc)) | exact hc)
      | (obtain ⟨x, _, h2⟩ := ok_of_bind _ _ _ h
         cases h2 <;> first | exact qcClean_wfOk _ _ _ _ hc | exact qcClean_wfOk _ _ _ _ (qcClean_artSet _ _ _ (by decide) hc) | exact qcClean_wfOk _ _ _ _ (qcClean_artSet _ _ _ (by decide) (qcClean_artSet _ _ _ (by decide) hc)) | exact hc)
  rw [if_neg h4] at h
  by_cases h5 : action = "spatial_buffer"
  · rw [if_pos h5] at h
    repeat' split at h
    all_goals first
      | (cases h <;> first | exact qcClean_wfOk _ _ _ _ hc | exact qcClean_wfOk _ _ _ _ (qcClean_artSet _ _ _ (by decide) hc) | exact qcClean_wfOk _ _ _ _ (qcClean_artSet _ _ _ (by decide) (qcClean_artSet _ _ _ (by decide) hc)) | exact hc)
      | (obtain ⟨x, _, h2⟩ := ok_of_bind _ _ _ h
         cases h2 <;> first | exact qcClean_wfOk _ _ _ _ hc | exact qcClean_wfOk _ _ _ _ (qcClean_artSet _ _ _ (by decide) hc) | exact qcClean_wfOk _ _ _ _ (qcClean_artSet _ _ _ (by decide) (qcClean_artSet _ _ _ (by decide) hc)) | exact hc)
  rw [if_neg h5] at h
  by_cases h6 : action = "spatial_nearest"
  · rw [if_pos h6] at h
    repeat' split at h
    all_goals first
      | (cases h <;> first | exact qcClean_wfOk _ _ _ _ hc | exact qcClean_wfOk _ _ _ _ (qcClean_artSet _ _ _ (by decide) hc) | exact qcClean_wfOk _ _ _ _ (qcClean_artSet _ _ _ (by decide) (qcClean_artSet _ _ _ (by decide) hc)) | exact hc)
      | (obtain ⟨x, _, h2⟩ := ok_of_bind _ _ _ h
         cases h2 <;> first | exact qcClean_wfOk _ _ _ _ hc | exact qcClean_wfOk _ _ _ _ (qcClean_artSet _ _ _ (by decide) hc) | exact qcClean_wfOk _ _ _ _ (qcClean_artSet _ _ _ (by decide) (qcClean_artSet _ _ _ (by decide) hc)) | exact hc)
  rw [if_neg h6] at h
  by_cases h7 : action = "spatial_overlay"
  · rw [if_pos h7] at h
    repeat' split at h
    all_goals first
      | (cases h <;> first | exact qcClean_wfOk _ _ _ _ hc | exact qcClean_wfOk _ _ _ _ (qcClean_artSet _ _ _ (by decide) hc) | exact qcClean_wfOk _ _ _ _ (qcClean_artSet _ _ _ (by decide) (qcClean_artSet _ _ _ (by decide) hc)) | exact hc)
      | (obtain ⟨x, _, h2⟩ := ok_of_bind _ _ _ h
         cases h2 <;> first | exact qcClean_wfOk _ _ _ _ hc | exact qcClean_wfOk _ _ _ _ (qcClean_artSet _ _ _ (by decide) hc) | exact qcClean_wfOk _ _ _ _ (qcClean_artSet _ _ _ (by decide) (qcClean_artSet _ _ _ (by decide) hc)) | exact hc)
  rw [if_neg h7] at h
  by_cases h8 : action = "spatial_dissolve"
  · rw [if_pos h8] at h
    repeat' split at h
    all_goals first
      | (cases h <;> first | exact qcClean_wfOk _ _ _ _ hc | exact qcClean_wfOk _ _ _ _ (qcClean_artSet _ _ _ (by decide) hc) | exact qcClean_wfOk _ _ _ _ (qcClean_artSet _ _ _ (by decide) (qcClean_artSet _ _ _ (by decide) hc)) | exact hc)
      | (obtain ⟨x, _, h2⟩ := ok_of_bind _ _ _ h
         cases h2 <;> first | exact qcClean_wfOk _ _ _ _ hc | exact qcClean_wfOk _ _ _ _ (qcClean_artSet _ _ _ (by decide) hc) | exact qcClean_wfOk _ _ _ _ (qcClean_artSet _ _ _ (by decide) (qcClean_artSet _ _ _ (by decide) hc)) | exact hc)
  rw [if_neg h8] at h
  by_cases h9 : action = "spatial_join_mods_counts"
  · rw [if_pos h9] at h
    repeat' split at h
    all_goals first
      | (cases h <;> first | exact qcClean_wfOk _ _ _ _ hc | exact qcClean_wfOk _ _ _ _ (qcClean_artSet _ _ _ (by decide) hc) | exact qcClean_wfOk _ _ _ _ (qcClean_artSet _ _ _ (by decide) (qcClean_artSet _ _ _ (by decide) hc)) | exact hc)
      | (obtain ⟨x, _, h2⟩ := ok_of_bind _ _ _ h
         cases h2 <;> first | exact qcClean_wfOk _ _ _ _ hc | exact qcClean_wfOk _ _ _ _ (qcClean_artSet _ _ _ (by decide) hc) | exact qcClean_wfOk _ _ _ _ (qcClean_artSet _ _ _ (by decide) (qcClean_artSet _ _ _ (by decide) hc)) | exact hc)
  rw [if_neg h9] at h
  by_cases h10 : action = "spatial_join_mods_nearest"
  · rw [if_pos h10] at h
    repeat' split at h
    all_goals first
      | (cases h <;> first | exact qcClean_wfOk _ _ _ _ hc | exact qcClean_wfOk _ _ _ _ (qcClean_artSet _ _ _ (by decide) hc) | exact qcClean_wfOk _ _ _ _ (qcClean_artSet _ _ _ (by decide) (qcClean_artSet _ _ _ (by decide) hc)) | exact hc)
      | (obtain ⟨x, _, h2⟩ := ok_of_bind _ _ _ h
         cases h2 <;> first | exact qcClean_wfOk _ _ _ _ hc | exact qcClean_wfOk _ _ _ _ (qcClean_artSet _ _ _ (by decide) hc) | exact qcClean_wfOk _ _ _ _ (qcClean_artSet _ _ _ (by decide) (qcClean_artSet _ _ _ (by decide) hc)) | exact hc)
  rw [if_neg h10] at h
  by_cases h11 : action = "rasters_zonal_stats"
  · rw [if_pos h11] at h
    repeat' split at h
    all_goals first
      | (cases h <;> first | exact qcClean_wfOk _ _ _ _ hc | exact qcClean_wfOk _ _ _ _ (qcClean_artSet _ _ _ (by decide) hc) | exact qcClean_wfOk _ _ _ _ (qcClean_artSet _ _ _ (by decide) (qcClean_artSet _ _ _ (by decide) hc)) | exact hc)
      | (obtain ⟨x, _, h2⟩ := ok_of_bind _ _ _ h
         cases h2 <;> first | exact qcClean_wfOk _ _ _ _ hc | exact qcClean_wfOk _ _ _ _ (qcClean_artSet _ _ _ (by decide) hc) | exact qcClean_wfOk _ _ _ _ (qcClean_artSet _ _ _ (by decide) (qcClean_artSet _ _ _ (by decide) hc)) | exact hc)
  rw [if_neg h11] at h
  by_cases h12 : action = "ogc_items_link"
  · rw [if_pos h12] at h
    repeat' split at h
    all_goals first
      | (cases h <;> first | exact qcClean_wfOk _ _ _ _ hc | exact qcClean_wfOk _ _ _ _ (qcClean_artSet _ _ _ (by decide) hc) | exact qcClean_wfOk _ _ _ _ (qcClean_artSet _ _ _ (by decide) (qcClean_artSet _ _ _ (by decide) hc)) | exact hc)
      | (obtain ⟨x, _, h2⟩ := ok_of_bind _ _ _ h
         cases h2 <;> first | exact qcClean_wfOk _ _ _ _ hc | exact qcClean_wfOk _ _ _ _ (qcClean_artSet _ _ _ (by decide) hc) | exact qcClean_wfOk _ _ _ _ (qcClean_artSet _ _ _ (by decide) (qcClean_artSet _ _ _ (by decide) hc)) | exact hc)
  rw [if_neg h12] at h
  by_cases h13 : action = "publish_layer_instructions"
  · rw [if_pos h13] at h
    repeat' split at h
    all_goals first
      | (cases h <;> first | exact qcClean_wfOk _ _ _ _ hc | exact qcClean_wfOk _ _ _ _ (qcClean_artSet _ _ _ (by decide) hc) | exact qcClean_wfOk _ _ _ _ (qcClean_artSet _ _ _ (by decide) (qcClean_artSet _ _ _ (by decide) hc)) | exact hc)
      | (obtain ⟨x, _, h2⟩ := ok_of_bind _ _ _ h
         cases h2 <;> first | exact qcClean_wfOk _ _ _ _ hc | exact qcClean_wfOk _ _ _ _ (qcClean_artSet _ _ _ (by decide) hc) | exact qcClean_wfOk _ _ _ _ (qcClean_artSet _ _ _ (by decide) (qcClean_artSet _ _ _ (by decide) hc)) | exact hc)
  rw [if_neg h13] at h
  by_cases h14 : action = "geojson_export"
  · rw [if_pos h14] at h
    repeat' split at h
    all_goals first
      | (cases h <;> first | exact qcClean_wfOk _ _ _ _ hc | exact qcClean_wfOk _ _ _ _ (qcClean_artSet _ _ _ (by decide) hc) | exact qcClean_wfOk _ _ _ _ (qcClean_artSet _ _ _ (by decide) (qcClean_artSet _ _ _ (by decide) hc)) | exact hc)
      | (obtain ⟨x, _, h2⟩ := ok_of_bind _ _ _ h
         cases h2 <;> first | exact qcClean_wfOk _ _ _ _ hc | exact qcClean_wfOk _ _ _ _ (qcClean_artSet _ _ _ (by decide) hc) | exact qcClean_wfOk _ _ _ _ (qcClean_artSet _ _ _ (by decide) (qcClean_artSet _ _ _ (by decide) hc)) | exact hc)
  rw [if_neg h14] at h
  by_cases h15 : action = "csv_export"
  · rw [if_pos h15] at h
    repeat' split at h
    all_goals first
      | (cases h <;> first | exact qcClean_wfOk _ _ _ _ hc | exact qcClean_wfOk _ _ _ _ (qcClean_artSet _ _ _ (by decide) hc) | exact qcClean_wfOk _ _ _ _ (qcClean_artSet _ _ _ (by decide) (qcClean_artSet _ _ _ (by decide) hc)) | exact hc)
      | (obtain ⟨x, _, h2⟩ := ok_of_bind _ _ _ h
         cases h2 <;> first | exact qcClean_wfOk _ _ _ _ hc | exact qcClean_wfOk _ _ _ _ (qcClean_artSet _ _ _ (by decide) hc) | exact qcClean_wfOk _ _ _ _ (qcClean_artSet _ _ _ (by decide) (qcClean_artSet _ _ _ (by decide) hc)) | exact hc)
  rw [if_neg h15] at h
  by_cases h16 : action = "search_mods"
  · rw [if_pos h16] at h
    repeat' split at h
    all_goals first
      | (cases h <;> first | exact qcClean_wfOk _ _ _ _ hc | exact qcClean_wfOk _ _ _ _ (qcClean_artSet _ _ _ (by decide) hc) | exact qcClean_wfOk _ _ _ _ (qcClean_artSet _ _ _ (by decide) (qcClean_artSet _ _ _ (by decide) hc)) | exact hc)
      | (obtain ⟨x, _, h2⟩ := ok_of_bind _ _ _ h
         cases h2 <;> first | exact qcClean_wfOk _ _ _ _ hc | exact qcClean_wfOk _ _ _ _ (qcClean_artSet _ _ _ (by decide) hc) | exact qcClean_wfOk _ _ _ _ (qcClean_artSet _ _ _ (by decide) (qcClean_artSet _ _ _ (by decide) hc)) | exact hc)
  rw [if_neg h16] at h
  by_cases h17 : action = "nearby_mods"
  · rw [if_pos h17] at h
    repeat' split at h
    all_goals first
      | (cases h <;> first | exact qcClean_wfOk _ _ _ _ hc | exact qcClean_wfOk _ _ _ _ (qcClean_artSet _ _ _ (by decide) hc) | exact qcClean_wfOk _ _ _ _ (qcClean_artSet _ _ _ (by decide) (qcClean_artSet _ _ _ (by decide) hc)) | exact hc)
      | (obtain ⟨x, _, h2⟩ := ok_of_bind _ _ _ h
         cases h2 <;> first | exact qcClean_wfOk _ _ _ _ hc | exact qcClean_wfOk _ _ _ _ (qcClean_artSet _ _ _ (by decide) hc) | exact qcClean_wfOk _ _ _ _ (qcClean_artSet _ _ _ (by decide) (qcClean_artSet _ _ _ (by decide) hc)) | exact hc)
  rw [if_neg h17] at h
  by_cases h18 : action = "bbox_mods"
  · rw [if_pos h18] at h
    repeat' split at h
    all_goals first
      | (cases h <;> first | exact qcClean_wfOk _ _ _ _ hc | exact qcClean_wfOk _ _ _ _ (qcClean_artSet _ _ _ (by decide) hc) | exact qcClean_wfOk _ _ _ _ (qcClean_artSet _ _ _ (by decide) (qcClean_artSet _ _ _ (by decide) hc)) | exact hc)
      | (obtain ⟨x, _, h2⟩ := ok_of_bind _ _ _ h
         cases h2 <;> first | exact qcClean_wfOk _ _ _ _ hc | exact qcClean_wfOk _ _ _ _ (qcClean_artSet _ _ _ (by decide) hc) | exact qcClean_wfOk _ _ _ _ (qcClean_artSet _ _ _ (by decide) (qcClean_artSet _ _ _ (by decide) hc)) | exact hc)
  rw [if_neg h18] at h
  by_cases h19 : action = "nearest_mods"
  · rw [if_pos h19] at h
    repeat' split at h
    all_goals first
      | (cases h <;> first | exact qcClean_wfOk _ _ _ _ hc | exact qcClean_wfOk _ _ _ _ (qcClean_artSet _ _ _ (by decide) hc) | exact qcClean_wfOk _ _ _ _ (qcClean_artSet _ _ _ (by decide) (qcClean_artSet _ _ _ (by decide) hc)) | exact hc)
      | (obtain ⟨x, _, h2⟩ := ok_of_bind _ _ _ h
         cases h2 <;> first | exact qcClean_wfOk _ _ _ _ hc | exact qcClean_wfOk _ _ _ _ (qcClean_artSet _ _ _ (by decide) hc) | exact qcClean_wfOk _ _ _ _ (qcClean_artSet _ _ _ (by decide) (qcClean_artSet _ _ _ (by decide) hc)) | exact hc)
  rw [if_neg h19] at h
  by_cases h20 : action = "stats_by_region"
  · rw [if_pos h20] at h
    repeat' split at h
    all_goals first
      | (cases h <;> first | exact qcClean_wfOk _ _ _ _ hc | exact qcClean_wfOk _ _ _ _ (qcClean_artSet _ _ _ (by decide) hc) | exact qcClean_wfOk _ _ _ _ (qcClean_artSet _ _ _ (by decide) (qcClean_artSet _ _ _ (by decide) hc)) | exact hc)
      | (obtain ⟨x, _, h2⟩ := ok_of_bind _ _ _ h
         cases h2 <;> first | exact qcClean_wfOk _ _ _ _ hc | exact qcClean_wfOk _ _ _ _ (qcClean_artSet _ _ _ (by decide) hc) | exact qcClean_wfOk _ _ _ _ (qcClean_artSet _ _ _ (by decide) (qcClean_artSet _ _ _ (by decide) hc)) | exact hc)
  rw [if_neg h20] at h
  by_cases h21 : action = "importance_breakdown"
  · rw [if_pos h21] at h
    repeat' split at h
    all_goals first
      | (cases h <;> first | exact qcClean_wfOk _ _ _ _ hc | exact qcClean_wfOk _ _ _ _ (qcClean_artSet _ _ _ (by decide) hc) | exact qcClean_wfOk _ _ _ _ (qcClean_artSet _ _ _ (by decide) (qcClean_artSet _ _ _ (by decide) hc)) | exact hc)
      | (obtain ⟨x, _, h2⟩ := ok_of_bind _ _ _ h
         cases h2 <;> first | exact qcClean_wfOk _ _ _ _ hc | exact qcClean_wfOk _ _ _ _ (qcClean_artSet _ _ _ (by decide) hc) | exact qcClean_wfOk _ _ _ _ (qcClean_artSet _ _ _ (by decide) (qcClean_artSet _ _ _ (by decide) hc)) | exact hc)
  rw [if_neg h21] at h
  by_cases h22 : action = "heatmap_bins"
  · rw [if_pos h22] at h
    repeat' split at h
    all_goals first
      | (cases h <;> first | exact qcClean_wfOk _ _ _ _ hc | exact qcClean_wfOk _ _ _ _ (qcClean_artSet _ _ _ (by decide) hc) | exact qcClean_wfOk _ _ _ _ (qcClean_artSet _ _ _ (by decide) (qcClean_artSet _ _ _ (by decide) hc)) | exact hc)
      | (obtain ⟨x, _, h2⟩ := ok_of_bind _ _ _ h
         cases h2 <;> first | exact qcClean_wfOk _ _ _ _ hc | exact qcClean_wfOk _ _ _ _ (qcClean_artSet _ _ _ (by decide) hc) | exact qcClean_wfOk _ _ _ _ (qcClean_artSet _ _ _ (by decide) (qcClean_artSet _ _ _ (by decide) hc)) | exact hc)
  rw [if_neg h22] at h
  by_cases h23 : action = "commodity_stats"
  · rw [if_pos h23] at h
    repeat' split at h
    all_goals first
      | (cases h <;> first | exact qcClean_wfOk _ _ _ _ hc | exact qcClean_wfOk _ _ _ _ (qcClean_artSet _ _ _ (by decide) hc) | exact qcClean_wfOk _ _ _ _ (qcClean_artSet _ _ _ (by decide) (qcClean_artSet _ _ _ (by decide) hc)) | exact hc)
      | (obtain ⟨x, _, h2⟩ := ok_of_bind _ _ _ h
         cases h2 <;> first | exact qcClean_wfOk _ _ _ _ hc | exact qcClean_wfOk _ _ _ _ (qcClean_artSet _ _ _ (by decide) hc) | exact qcClean_wfOk _ _ _ _ (qcClean_artSet _ _ _ (by decide) (qcClean_artSet _ _ _ (by decide) hc)) | exact hc)
  rw [if_neg h23] at h
  cases h
  exact hc

/-- `_exec` (gate then dispatch) never writes a QC artifact key when QC
is disabled. -/
theorem execWF_qcClean (fe : String → Bool) (tools : ToolsBE) (gis : GisW)
    (uploaded : Option AVal) (uploadedFc : Option FC) (action : String) (args : Args)
    (st st2 : WfSt) (hfe : fe "qc" = false)
    (h : execWF fe tools gis uploaded uploadedFc action args st = .ok st2)
    (hc : qcClean st.artifacts) : qcClean st2.artifacts := by
  simp only [execWF] at h
  obtain ⟨args2, hgate, h⟩ := ok_of_bind _ _ _ h
  by_cases hqc : pyStartsWith action "qc_" = true
  · exact absurd (execGateWF_qc fe action args args2 hqc hfe hgate) (fun f => f)
  · exact execDispatchWF_qcClean tools gis uploaded uploadedFc action args2 st st2
      (by simpa using hqc) h hc

/-- The workflow step loop never populates a QC artifact key when QC is
disabled. -/
theorem runStepsWF_qcClean (fe : String → Bool) (tools : ToolsBE) (gis : GisW)
    (uploaded : Option AVal) (uploadedFc : Option FC) (hfe : fe "qc" = false) :
    ∀ (steps : List PlanStep) (st : WfSt), qcClean st.artifacts →
      qcClean (runStepsWF fe tools gis uploaded uploadedFc steps st).artifacts
  | [], st, hc => hc
  | step :: rest, st, hc => by
    simp only [runStepsWF]
    apply runStepsWF_qcClean fe tools gis uploaded uploadedFc hfe rest
    split
    · exact hc
    · split
      · next st2 heq =>
        exact execWF_qcClean fe tools gis uploaded uploadedFc step.action _ st st2
          hfe heq hc
      · exact hc

/-- Attaching the Vega charts artifact preserves QC-cleanliness. -/
theorem qcClean_chartify (a : Artifacts) (h : qcClean a) :
    qcClean (if buildVegaCharts a ≠ [] then artSet a "charts" (.rows (buildVegaCharts a))
      else a) := by
  split
  · exact qcClean_artSet _ _ _ (by decide) h
  · exact h

/-- Workflow answer synthesis preserves QC-cleanliness. -/
theorem finalizeWF_qcClean (llm : Nat → String) (ragRetrieve : String → String × List Row)
    (sanitize : String → String) (useLlm : Bool) (query : String)
    (plan : List PlanStep) (k : Nat) (st : WfSt) (h : qcClean st.artifacts) :
    qcClean ((finalizeWF llm ragRetrieve sanitize useLlm query plan k st).artifacts) := by
  simp only [finalizeWF]
  split
  · exact qcClean_chartify _ h
  · exact qcClean_chartify _ h

/-- With QC disabled, a whole `run_workflow` invocation never populates a
QC artifact key. -/
theorem runWorkflowBE_qcClean (llm : Nat → String) (loadsW : String → Option WObj)
    (fe : String → Bool) (tools : ToolsBE) (gis : GisW)
    (ragRetrieve : String → String × List Row) (sanitize : String → String)
    (uploaded : Option AVal) (uploadedFc : Option FC) (query : String)
    (maxSteps : Nat) (useLlm : Bool) (hfe : fe "qc" = false) :
    qcClean ((runWorkflowBE llm loadsW fe tools gis ragRetrieve sanitize uploaded
      uploadedFc query maxSteps useLlm).artifacts) :=
  finalizeWF_qcClean _ _ _ _ _ _ _ _
    (runStepsWF_qcClean fe tools gis uploaded uploadedFc hfe _ _ (fun k hk => rfl))

/-- C8: confirmed.  With `feature_enabled("qc")` false, (i) the workflow
step loop never populates a QC artifact key from any clean start, (ii) a
whole `run_workflow` invocation ends with no QC artifact key populated,
and (iii) the Backend agent dispatch answers every LLM-proposed `qc_*`
tool with the policy refusal recorded as an error trace entry — the tool
body is never executed and the loop continues. -/
theorem c8_qc_gating :
    (∀ (fe : String → Bool) (tools : ToolsBE) (gis : GisW) (uploaded : Option AVal)
        (uploadedFc : Option FC) (steps : List PlanStep) (st : WfSt),
        fe "qc" = false → qcClean st.artifacts →
        qcClean ((runStepsWF fe tools gis uploaded uploadedFc steps st).artifacts)) ∧
    (∀ (llm : Nat → String) (loadsW : String → Option WObj) (fe : String → Bool)
        (tools : ToolsBE) (gis : GisW) (ragRetrieve : String → String × List Row)
        (sanitize : String → String) (uploaded : Option AVal) (uploadedFc : Option FC)
        (query : String) (maxSteps : Nat) (useLlm : Bool),
        fe "qc" = false →
        qcClean ((runWorkflowBE llm loadsW fe tools gis ragRetrieve sanitize uploaded
          uploadedFc query maxSteps useLlm).artifacts)) ∧
    (∀ (fe : String → Bool) (tools : ToolsBE) (ragRetrieve : String → String × List Row)
        (sanitize : String → String) (query modelOut : String) (st : BESt) (args : Args)
        (name : String),
        fe "qc" = false → name ∈ qcKeys →
        dispatchBE fe tools ragRetrieve sanitize query modelOut st (some name) args =
          .cont (beContErr st name args "QC is disabled by data governance policy.")) := by
  refine ⟨?_, ?_, ?_⟩
  · intro fe tools gis uploaded uploadedFc steps st hfe hc
    exact runStepsWF_qcClean fe tools gis uploaded uploadedFc hfe steps st hc
  · intro llm loadsW fe tools gis ragRetrieve sanitize uploaded uploadedFc query
      maxSteps useLlm hfe
    exact runWorkflowBE_qcClean llm loadsW fe tools gis ragRetrieve sanitize uploaded
      uploadedFc query maxSteps useLlm hfe
  · intro fe tools ragRetrieve sanitize query modelOut st args name hfe hmem
    fin_cases hmem <;> simp [dispatchBE, hfe]

/-- C8 witness: a concrete `qc_summary` proposal is refused at dispatch
when the governance flag denies QC. -/
theorem c8_qc_gating_witness :
    dispatchBE (fun _ => false) toolsBE0 rag0 id "q" "m"
        (BESt.mk 0 [] none [] [] "" "" "") (some "qc_summary") [] =
      .cont (beContErr (BESt.mk 0 [] none [] [] "" "" "") "qc_summary" []
        "QC is disabled by data governance policy.") :=
  c8_qc_gating.2.2 (fun _ => false) toolsBE0 rag0 id "q" "m"
    (BESt.mk 0 [] none [] [] "" "" "") [] "qc_summary" (by rfl) (by decide)

/-- A prefix of a string is a prefix of any extension of it. -/
theorem pyStartsWith_append (a b p : String) (hp : pyStartsWith a p = true) :
    pyStartsWith (a ++ b) p = true := by
  simp only [pyStartsWith, String.data_append] at hp ⊢
  rw [List.isPrefixOf_iff_prefix] at hp ⊢
  exact hp.trans (List.prefix_append _ _)

/-- A join starting with `x` starts with any prefix of `x`. -/
theorem strJoinSep_starts (sep x p : String) (xs : List String)
    (hp : pyStartsWith x p = true) :
    pyStartsWith (strJoinSep sep (x :: xs)) p = true := by
  cases xs with
  | nil => simpa [strJoinSep] using hp
  | cons y ys =>
    simp only [strJoinSep]
    exact pyStartsWith_append _ _ _ (pyStartsWith_append _ _ _ hp)

/-- The deterministic LLM-fallback summary always begins with its header
line (so it is non-empty and is not a failure sentinel). -/
theorem llmFallbackBitsWF_header (artifacts : Artifacts) :
    pyStartsWith (llmFallbackBitsWF artifacts) "LLM summary was unavailable" = true := by
  simp only [llmFallbackBitsWF, List.append_assoc, List.singleton_append]
  exact strJoinSep_starts _ _ _ _ (by decide)

/-- When the LLM summary call returns a failure sentinel, workflow answer
synthesis substitutes the deterministic fallback summary (then
sanitizes). -/
theorem finalizeWF_sentinel (llm : Nat → String)
    (ragRetrieve : String → String × List Row) (sanitize : String → String)
    (query : String) (plan : List PlanStep) (k : Nat) (st : WfSt)
    (hs : pyStartsWith (llm k) "LLM call timed out" = true ∨
      pyStartsWith (llm k) "LLM error" = true) :
    (finalizeWF llm ragRetrieve sanitize true query plan k st).answer =
      sanitize (llmFallbackBitsWF
        ((finalizeWF llm ragRetrieve sanitize true query plan k st).artifacts)) := by
  simp only [finalizeWF]
  rcases hs with h | h <;> simp [h]

/-- The deterministic fallback summary is never the empty string. -/
theorem llmFallbackBitsWF_ne_empty (artifacts : Artifacts) :
    llmFallbackBitsWF artifacts ≠ "" := by
  have h := llmFallbackBitsWF_header artifacts
  intro he
  rw [he] at h
  exact absurd h (by decide)

/-- C7: confirmed.  If every `generate_response` call returns a failure
sentinel (prefix "LLM call timed out" or "LLM error"), `run_workflow`
with `use_llm=True` still returns (it is total by construction), and its
answer is the sanitized deterministic fallback summary built from the
computed artifacts — a non-empty text beginning with the fallback header,
not the sentinel. -/
theorem c7_workflow_sentinel_fallback :
    ∀ (llm : Nat → String) (loadsW : String → Option WObj) (fe : String → Bool)
      (tools : ToolsBE) (gis : GisW) (ragRetrieve : String → String × List Row)
      (sanitize : String → String) (uploaded : Option AVal) (uploadedFc : Option FC)
      (query : String) (maxSteps : Nat),
      (∀ n, pyStartsWith (llm n) "LLM call timed out" = true ∨
        pyStartsWith (llm n) "LLM error" = true) →
      ((runWorkflowBE llm loadsW fe tools gis ragRetrieve sanitize uploaded uploadedFc
          query maxSteps true).answer =
        sanitize (llmFallbackBitsWF ((runWorkflowBE llm loadsW fe tools gis ragRetrieve
          sanitize uploaded uploadedFc query maxSteps true).artifacts))) ∧
      pyStartsWith (llmFallbackBitsWF ((runWorkflowBE llm loadsW fe tools gis ragRetrieve
        sanitize uploaded uploadedFc query maxSteps true).artifacts))
        "LLM summary was unavailable" = true ∧
      llmFallbackBitsWF ((runWorkflowBE llm loadsW fe tools gis ragRetrieve sanitize
        uploaded uploadedFc query maxSteps true).artifacts) ≠ "" := by
  intro llm loadsW fe tools gis ragRetrieve sanitize uploaded uploadedFc query
    maxSteps hllm
  refine ⟨?_, llmFallbackBitsWF_header _, llmFallbackBitsWF_ne_empty _⟩
  exact finalizeWF_sentinel llm ragRetrieve sanitize query _ _ _ (hllm _)

/-- An LLM that always times out. -/
def llmT : Nat → String := fun _ => "LLM call timed out after 30s"

/-- A workflow-plan parser that never parses. -/
def loadsW0 : String → Option WObj := fun _ => none

/-- C7 witness: the sentinel fallback at a concrete all-timeout run. -/
theorem c7_workflow_sentinel_fallback_witness :
    ((runWorkflowBE llmT loadsW0 (fun _ => true) toolsBE0 gis0 rag0 id none none
        "q" 3 true).answer =
      id (llmFallbackBitsWF ((runWorkflowBE llmT loadsW0 (fun _ => true) toolsBE0 gis0
        rag0 id none none "q" 3 true).artifacts))) ∧
    pyStartsWith (llmFallbackBitsWF ((runWorkflowBE llmT loadsW0 (fun _ => true)
      toolsBE0 gis0 rag0 id none none "q" 3 true).artifacts))
      "LLM summary was unavailable" = true ∧
    llmFallbackBitsWF ((runWorkflowBE llmT loadsW0 (fun _ => true) toolsBE0 gis0 rag0
      id none none "q" 3 true).artifacts) ≠ "" :=
  c7_workflow_sentinel_fallback llmT loadsW0 (fun _ => true) toolsBE0 gis0 rag0 id
    none none "q" 3 (fun _ => Or.inl (show
      pyStartsWith "LLM call timed out after 30s" "LLM call timed out" = true
      by decide))
